import Mathlib

/-!
Verification development for the HealthFlow multi-standard prescription
exchange core.  The Python modules `src/gateway/prescription_submission_api.py`,
`src/integrations/hl7_integration.py`, `src/integrations/fhir_integration.py`
and `src/integrations/ehr_integration.py` are shallowly embedded below:
dictionaries become structures with `Option` fields for optional keys,
raised exceptions become the `Outcome.raised` constructor, and values that
the source obtains from the clock or from `uuid.uuid4()` become explicit
string parameters.
-/

/-- Outcome of a Python call: either a returned value or a raised exception
carrying its message (`str(e)`). -/
inductive Outcome (α : Type) where
  | ok (a : α)
  | raised (msg : String)
deriving Repr, DecidableEq

/-- True when the call raised instead of returning. -/
def Outcome.isRaised {α : Type} : Outcome α → Bool
  | .ok _ => false
  | .raised _ => true

/-- Model of Python `str.upper` on one ASCII character. -/
def pyUpperChar (c : Char) : Char :=
  if 'a' ≤ c ∧ c ≤ 'z' then Char.ofNat (c.toNat - 32) else c

/-- Model of Python `str.upper` (ASCII inputs). -/
def pyUpper (s : String) : String := ⟨s.data.map pyUpperChar⟩

/-- Model of Python slicing `s[:n]`. -/
def pyTake (n : Nat) (s : String) : String := ⟨s.data.take n⟩

/-- Model of Python `s.startswith(pre)` (the core `String.startsWith`
does not reduce in the kernel; this list version does). -/
def pyStartsWith (s pre : String) : Bool := pre.data.isPrefixOf s.data

/-- Truthiness of an optional string value: a missing key and an empty
string are both falsy in Python. -/
def pyTruthy : Option String → Bool
  | none => false
  | some s => s != ""

namespace Gateway

/-- `PrescriptionFormat` from `prescription_submission_api.py`. -/
inductive PrescriptionFormat where
  | ncpdp_script
  | fhir_r4
  | hl7_v2
  | json
deriving Repr, DecidableEq

/-- `SubmissionStatus` from `prescription_submission_api.py`. -/
inductive SubmissionStatus where
  | received
  | validated
  | processing
  | transmitted
  | error
  | rejected
deriving Repr, DecidableEq

/-- An entry of an `errors` list: validation produces `{"field": f,
"error": e}` dictionaries, the top-level exception handler produces a
`{"error": e}` dictionary. -/
inductive ErrorEntry where
  | fieldError (field : String) (error : String)
  | bareError (error : String)
deriving Repr, DecidableEq

/-- One medication entry of the canonical JSON payload.  Gateway
validation only inspects the length of the medications list, never the
entries themselves. -/
structure Medication where
  medicine_code : String
  medicine_name : String
  quantity : Int
deriving Repr, DecidableEq

/-- The value found at the payload key `"medications"`: key absent,
present but not a list (the `isinstance` check), or a list. -/
inductive MedsField where
  | missing
  | notList
  | meds (l : List Medication)
deriving Repr, DecidableEq

/-- The submitted payload dictionary.  `Option` is key presence; fields
that the gateway never branches on (`doctor_license`, dates, …) are not
modelled. -/
structure Payload where
  doctor_id : Option String := none
  doctor_name : Option String := none
  patient_id : Option String := none
  patient_name : Option String := none
  diagnosis : Option String := none
  medications : MedsField := .missing
  xml_content : Option String := none
  resourceType : Option String := none
  pharmacy_id : Option String := none
deriving Repr, DecidableEq

/-- Result dictionary of `_validate_prescription`. -/
structure ValidationResult where
  valid : Bool
  errors : List ErrorEntry
deriving Repr, DecidableEq

/-- A validation collaborator (the optional `validation_service`): it may
return a result dictionary or raise. -/
def VService : Type := Payload → PrescriptionFormat → Outcome ValidationResult

/-- The required-field loop of `_validate_prescription` for JSON, in
source order (`doctor_id, doctor_name, patient_id, patient_name,
medications, diagnosis`). -/
def requiredFieldErrors (p : Payload) : List ErrorEntry :=
  (if p.doctor_id.isNone then [.fieldError "doctor_id" "Required field missing"] else []) ++
  (if p.doctor_name.isNone then [.fieldError "doctor_name" "Required field missing"] else []) ++
  (if p.patient_id.isNone then [.fieldError "patient_id" "Required field missing"] else []) ++
  (if p.patient_name.isNone then [.fieldError "patient_name" "Required field missing"] else []) ++
  (match p.medications with
   | .missing => [.fieldError "medications" "Required field missing"]
   | _ => []) ++
  (if p.diagnosis.isNone then [.fieldError "diagnosis" "Required field missing"] else [])

/-- The medications checks of `_validate_prescription` (only reached when
the key is present). -/
def medicationsErrors (p : Payload) : List ErrorEntry :=
  match p.medications with
  | .missing => []
  | .notList => [.fieldError "medications" "Must be a list"]
  | .meds l =>
      if l.length = 0 then [.fieldError "medications" "At least one medication required"]
      else []

/-- The format-dispatched error collection of `_validate_prescription`
before the optional validation service is consulted. -/
def baseErrors (p : Payload) : PrescriptionFormat → List ErrorEntry
  | .json => requiredFieldErrors p ++ medicationsErrors p
  | .ncpdp_script =>
      if pyTruthy p.xml_content then []
      else [.fieldError "xml_content" "NCPDP SCRIPT XML content required"]
  | .fhir_r4 =>
      if pyTruthy p.resourceType then []
      else [.fieldError "resourceType" "FHIR resourceType required"]
  | .hl7_v2 => []

/-- `PrescriptionSubmissionGateway._validate_prescription`.  The
validation service is consulted only when it is configured and no error
was collected so far; a raise inside it propagates. -/
def validate_prescription (vsvc : Option VService) (p : Payload)
    (f : PrescriptionFormat) : Outcome ValidationResult :=
  let errors := baseErrors p f
  match vsvc with
  | none => .ok ⟨errors.isEmpty, errors⟩
  | some svc =>
      if errors.isEmpty then
        match svc p f with
        | .raised e => .raised e
        | .ok r =>
            let errors2 := errors ++ (if r.valid then [] else r.errors)
            .ok ⟨errors2.isEmpty, errors2⟩
      else .ok ⟨errors.isEmpty, errors⟩

/-- `{}`: the empty dictionary returned by the NCPDP/FHIR/HL7 parse
stubs. -/
def emptyPayload : Payload := {}

/-- `PrescriptionSubmissionGateway._normalize_prescription`: JSON passes
through unchanged, the other formats are fed to parse stubs returning
`{}`. -/
def normalize_prescription (p : Payload) : PrescriptionFormat → Payload
  | .json => p
  | _ => emptyPayload

/-- `PrescriptionSubmissionGateway._generate_tx_id`, with the UTC date
string (`%Y%m%d`) and the `str(uuid.uuid4())` value as parameters. -/
def generate_tx_id (date uuid : String) : String :=
  "RX-" ++ date ++ "-" ++ pyUpper (pyTake 8 uuid)

/-- `SubmissionResponse` (the `timestamp` field, a wall-clock value
unused by every claim, is not modelled). -/
structure SubmissionResponse where
  submission_id : String
  prescription_tx_id : String
  status : SubmissionStatus
  message : String
  errors : Option (List ErrorEntry) := none
deriving Repr, DecidableEq

/-- `PrescriptionSubmissionGateway.submit_prescription`.  The whole body
runs inside `try`; `_store_prescription` and `_forward_to_pharmacy`
contain no failing operation in the source (the database insert is
commented out), so the only injectable exception source is the validation
collaborator; the final `match` is the `except Exception` handler. -/
def submit_prescription (vsvc : Option VService) (submission_id date uuid : String)
    (p : Payload) (f : PrescriptionFormat) : SubmissionResponse :=
  let body : Outcome SubmissionResponse :=
    match validate_prescription vsvc p f with
    | .raised e => .raised e
    | .ok vr =>
        if vr.valid then
          let _normalized := normalize_prescription p f
          .ok { submission_id := submission_id
                prescription_tx_id := generate_tx_id date uuid
                status := .transmitted
                message := "Prescription submitted and transmitted successfully" }
        else
          .ok { submission_id := submission_id
                prescription_tx_id := ""
                status := .rejected
                message := "Validation failed"
                errors := some vr.errors }
  match body with
  | .ok r => r
  | .raised e =>
      { submission_id := submission_id
        prescription_tx_id := ""
        status := .error
        message := "Submission error: " ++ e
        errors := some [.bareError e] }

/-- Decidable check for the transaction-id pattern `RX-\d{8}-[A-F0-9]{8}`. -/
def isUpperHexDigit (c : Char) : Bool := c.isDigit || ('A' ≤ c && c ≤ 'F')

/-- Full match of a string against `RX-\d{8}-[A-F0-9]{8}`, stated by
slicing: the three-character prefix, eight digits, a dash at index 11,
and eight uppercase hex characters filling the rest. -/
def matchesTxPattern (s : String) : Bool :=
  decide ((s.data.take 3) = ['R', 'X', '-']) &&
  decide (((s.data.drop 3).take 8).length = 8) &&
  ((s.data.drop 3).take 8).all Char.isDigit &&
  decide (((s.data.drop 11).take 1) = ['-']) &&
  decide ((s.data.drop 12).length = 8) && (s.data.drop 12).all isUpperHexDigit

/-- The sixteen characters that can occur in the first eight positions of
a `str(uuid.uuid4())` value. -/
def hexLowerChars : List Char :=
  ['0', '1', '2', '3'] ++ ['4', '5', '6', '7'] ++
    ['8', '9', 'a', 'b'] ++ ['c', 'd', 'e', 'f']

end Gateway

/-- Model of Python `str.lower` on one ASCII character. -/
def pyLowerChar (c : Char) : Char :=
  if 'A' ≤ c ∧ c ≤ 'Z' then Char.ofNat (c.toNat + 32) else c

/-- Model of Python `str.lower` (ASCII inputs). -/
def pyLower (s : String) : String := ⟨s.data.map pyLowerChar⟩

namespace EHRSync

/-- FHIR identifier entry as read by `_extract_patient_summary`;
`typeCode` flattens `identifier.type.coding[0].code`. -/
structure IdentifierR where
  value : Option String := none
  typeCode : Option String := none
deriving Repr, DecidableEq

/-- FHIR human-name entry.  A present-but-empty `given` list, which would
raise `IndexError` in the source, is conflated with an absent one. -/
structure HumanNameR where
  family : Option String := none
  given : List String := []
deriving Repr, DecidableEq

/-- The FHIR Patient resource fields read by `_extract_patient_summary`. -/
structure PatientResource where
  id : Option String := none
  name : List HumanNameR := []
  birthDate : Option String := none
  gender : Option String := none
  identifier : List IdentifierR := []
deriving Repr, DecidableEq

/-- A codeable concept: `coding[*].code`/`display` plus `text`. -/
structure CodeableR where
  text : Option String := none
  codes : List (Option String) := []
  displays : List (Option String) := []
deriving Repr, DecidableEq

/-- The FHIR MedicationRequest fields read by
`_extract_medication_summaries`. -/
structure MedResource where
  medicationCodeableConcept : CodeableR := {}
  status : Option String := none
  dosageText : Option String := none
deriving Repr, DecidableEq

/-- The FHIR AllergyIntolerance fields read by
`_extract_allergy_summaries`. -/
structure AllergyResource where
  code : CodeableR := {}
deriving Repr, DecidableEq

/-- The FHIR Condition fields read by `_extract_condition_summaries`. -/
structure CondResource where
  code : CodeableR := {}
  clinicalStatusCode : Option String := none
deriving Repr, DecidableEq

/-- Resource returned by a connector `create_prescription` call. -/
structure CreatedResource where
  id : Option String := none
  status : Option String := none
deriving Repr, DecidableEq

/-- An EHR connector: the four required capabilities plus the two
optional ones (`hasattr` probes become `Option`). -/
structure Connector where
  get_patient : String → Outcome PatientResource
  get_medications : String → Outcome (List MedResource)
  create_prescription : String → Outcome CreatedResource
  get_allergies : Option (String → Outcome (List AllergyResource)) := none
  get_conditions : Option (String → Outcome (List CondResource)) := none

/-- The connector registry of `EHRIntegrationService` (keys are stored
lowercased by `register_connector`). -/
def Service : Type := List (String × Connector)

/-- `EHRIntegrationService.register_connector`: dictionary assignment at
the lowercased key. -/
def register_connector (svc : Service) (ehr_system : String) (c : Connector) : Service :=
  svc.filter (fun kv => kv.1 != pyLower ehr_system) ++ [(pyLower ehr_system, c)]

/-- `EHRIntegrationService.get_connector`: lowercased lookup, raising
`ValueError` on a miss. -/
def get_connector (svc : Service) (ehr_system : String) : Outcome Connector :=
  match svc.find? (fun kv => kv.1 == pyLower ehr_system) with
  | some kv => .ok kv.2
  | none => .raised ("No connector registered for EHR system: " ++ ehr_system)

/-- `_extract_patient_summary` output. -/
structure PatientSummary where
  id : Option String
  first_name : String
  last_name : String
  dob : Option String
  gender : Option String
  mrn : Option String
deriving Repr, DecidableEq

/-- `EHRIntegrationService._extract_patient_summary`. -/
def extract_patient_summary (r : PatientResource) : PatientSummary :=
  let name := r.name.headD {}
  { id := r.id
    first_name := name.given.headD ""
    last_name := name.family.getD ""
    dob := r.birthDate
    gender := r.gender
    mrn := (r.identifier.find? (fun i => i.typeCode == some "MR")).bind (·.value) }

/-- `_extract_medication_summaries` output entry. -/
structure MedSummary where
  name : String
  code : Option String
  status : Option String
  dosage : String
deriving Repr, DecidableEq

/-- `EHRIntegrationService._extract_medication_summaries`. -/
def extract_medication_summaries (rs : List MedResource) : List MedSummary :=
  rs.map fun r =>
    { name := r.medicationCodeableConcept.text.getD "Unknown"
      code := (r.medicationCodeableConcept.codes.headD none)
      status := r.status
      dosage := r.dosageText.getD "" }

/-- `EHRIntegrationService._extract_allergy_summaries` (`text or
coding[0].display or default`, with Python truthiness on the text). -/
def extract_allergy_summaries (rs : List AllergyResource) : List String :=
  rs.map fun r =>
    match r.code.text with
    | some t => if t != "" then t else (r.code.displays.headD none).getD "Unknown"
    | none => (r.code.displays.headD none).getD "Unknown"

/-- `_extract_condition_summaries` output entry. -/
structure CondSummary where
  name : String
  code : Option String
  status : Option String
deriving Repr, DecidableEq

/-- `EHRIntegrationService._extract_condition_summaries`. -/
def extract_condition_summaries (rs : List CondResource) : List CondSummary :=
  rs.map fun r =>
    { name := r.code.text.getD "Unknown"
      code := r.code.codes.headD none
      status := r.clinicalStatusCode }

/-- `get_patient_context` output (`retrieved_at`, a clock value, is not
modelled). -/
structure PatientContext where
  patient : PatientSummary
  current_medications : List MedSummary
  allergies : List String
  conditions : List CondSummary
  source_ehr : String
deriving Repr, DecidableEq

/-- `EHRIntegrationService.get_patient_context`: required capabilities
re-raise on failure, the optional `get_allergies`/`get_conditions` are
probed with `hasattr` and any failure inside them is swallowed into an
empty list. -/
def get_patient_context (svc : Service) (ehr_system patient_id : String) :
    Outcome PatientContext :=
  match get_connector svc ehr_system with
  | .raised e => .raised e
  | .ok c =>
    match c.get_patient patient_id with
    | .raised e => .raised e
    | .ok patient =>
      match c.get_medications patient_id with
      | .raised e => .raised e
      | .ok medications =>
        let allergies :=
          match c.get_allergies with
          | none => []
          | some f => match f patient_id with | .ok l => l | .raised _ => []
        let conditions :=
          match c.get_conditions with
          | none => []
          | some f => match f patient_id with | .ok l => l | .raised _ => []
        .ok { patient := extract_patient_summary patient
              current_medications := extract_medication_summaries medications
              allergies := extract_allergy_summaries allergies
              conditions := extract_condition_summaries conditions
              source_ehr := ehr_system }

/-- Result dictionary of `EHRIntegrationService.sync_prescription`
(`synced_at`, a clock value, is not modelled). -/
structure SyncResult where
  success : Bool
  ehr_system : String
  ehr_prescription_id : Option String := none
  status : Option String := none
  error : Option String := none
deriving Repr, DecidableEq

/-- `EHRIntegrationService.sync_prescription`: the connector lookup
happens before the `try` and re-raises; a `create_prescription` failure
is converted to a `success = False` dictionary. -/
def sync_prescription (svc : Service) (ehr_system prescription_data : String) :
    Outcome SyncResult :=
  match get_connector svc ehr_system with
  | .raised e => .raised e
  | .ok c =>
      match c.create_prescription prescription_data with
      | .ok r =>
          .ok { success := true, ehr_system := ehr_system,
                ehr_prescription_id := r.id, status := r.status }
      | .raised e =>
          .ok { success := false, ehr_system := ehr_system, error := some e }

/-- Job status strings of the sync scheduler. -/
inductive JobStatus where
  | pending
  | completed
  | failed
deriving Repr, DecidableEq

/-- The `result` slot of a job: the sync-result dictionary on success or
the `{"error": str(e)}` dictionary on terminal failure. -/
inductive JobResult where
  | completedWith (r : SyncResult)
  | errorWith (e : String)
deriving Repr, DecidableEq

/-- A `SyncJob` dictionary (`created_at`/`last_attempt_at`, clock values,
are not modelled). -/
structure SyncJob where
  job_id : String
  prescription_id : String
  ehr_system : String
  prescription_data : String
  retry_count : Nat
  attempts : Nat
  status : JobStatus
  result : Option JobResult
deriving Repr, DecidableEq

/-- `EHRSyncScheduler.schedule_sync`: unconditionally appends a fresh
`PENDING` job; `now` stands for the `%Y%m%d%H%M%S` timestamp used in the
job id. -/
def schedule_sync (jobs : List SyncJob)
    (prescription_id ehr_system prescription_data : String)
    (retry_count : Nat) (now : String) : List SyncJob × String :=
  let job_id := "sync-" ++ prescription_id ++ "-" ++ now
  (jobs ++ [{ job_id := job_id
              prescription_id := prescription_id
              ehr_system := ehr_system
              prescription_data := prescription_data
              retry_count := retry_count
              attempts := 0
              status := .pending
              result := none }], job_id)

/-- The counters returned by `process_sync_jobs`. -/
structure ProcessResults where
  processed : Nat := 0
  succeeded : Nat := 0
  failed : Nat := 0
  retrying : Nat := 0
deriving Repr, DecidableEq

/-- Pointwise sum of two counter records. -/
def addResults (a b : ProcessResults) : ProcessResults :=
  { processed := a.processed + b.processed
    succeeded := a.succeeded + b.succeeded
    failed := a.failed + b.failed
    retrying := a.retrying + b.retrying }

/-- The loop body of `process_sync_jobs` for one pending job: increment
`attempts`, attempt the sync, mark `completed` on success, otherwise
leave `pending` while `attempts < retry_count` and mark `failed` with the
terminal error afterwards. -/
def process_one (svc : Service) (j : SyncJob) : SyncJob × ProcessResults :=
  let attempts := j.attempts + 1
  let failWith : String → SyncJob × ProcessResults := fun e =>
    if attempts < j.retry_count then
      ({ j with attempts := attempts, status := .pending },
       { processed := 1, retrying := 1 })
    else
      ({ j with attempts := attempts, status := .failed, result := some (.errorWith e) },
       { processed := 1, failed := 1 })
  match sync_prescription svc j.ehr_system j.prescription_data with
  | .raised e => failWith e
  | .ok r =>
      if r.success then
        ({ j with attempts := attempts, status := .completed,
                  result := some (.completedWith r) },
         { processed := 1, succeeded := 1 })
      else failWith (r.error.getD "Unknown error")

/-- `EHRSyncScheduler.process_sync_jobs`: every job that is `PENDING`
when the call starts is processed exactly once; other jobs are left
untouched. -/
def process_sync_jobs (svc : Service) : List SyncJob → List SyncJob × ProcessResults
  | [] => ([], {})
  | j :: js =>
      let rest := process_sync_jobs svc js
      if j.status = .pending then
        let one := process_one svc j
        (one.1 :: rest.1, addResults one.2 rest.2)
      else (j :: rest.1, rest.2)

end EHRSync

namespace HL7Queue

/-- A queued message dictionary; `arrival` models the strictly increasing
`queued_at` timestamp (one tick per enqueue). -/
structure QueuedMessage where
  queue_id : String
  message : String
  priority : Int
  arrival : Nat
  status : String
deriving Repr, DecidableEq

/-- The `HL7MessageQueue` state (`processed` bookkeeping is untouched by
enqueue/dequeue and not modelled). -/
structure QueueState where
  queue : List QueuedMessage
  counter : Nat
deriving Repr, DecidableEq

/-- Stable insertion of one element into a priority-descending sorted
list: the new element goes after existing elements of equal or higher
priority. -/
def insertByPriority (x : QueuedMessage) : List QueuedMessage → List QueuedMessage
  | [] => [x]
  | y :: ys =>
      if x.priority ≤ y.priority then y :: insertByPriority x ys
      else x :: y :: ys

/-- Model of `self.queue.sort(key=lambda x: x["priority"], reverse=True)`:
Python sort is stable, and left-to-right insertion sort with
`insertByPriority` is the stable descending sort, so the two agree on
every list. -/
def pySortByPriorityDesc (l : List QueuedMessage) : List QueuedMessage :=
  l.foldl (fun acc x => insertByPriority x acc) []

/-- `HL7MessageQueue.enqueue`: append the new pending message, then sort
by priority descending. -/
def enqueue (s : QueueState) (msg : String) (priority : Int) : QueueState × String :=
  let qid := "Q-" ++ toString s.counter
  let m : QueuedMessage :=
    { queue_id := qid, message := msg, priority := priority,
      arrival := s.counter, status := "pending" }
  ({ queue := pySortByPriorityDesc (s.queue ++ [m]), counter := s.counter + 1 }, qid)

/-- `HL7MessageQueue.dequeue`: pop the front of the queue (or `None`). -/
def dequeue (s : QueueState) : QueueState × Option QueuedMessage :=
  match s.queue with
  | [] => (s, none)
  | m :: rest => ({ s with queue := rest }, some { m with status := "processing" })

/-- An enqueue or dequeue call. -/
inductive QOp where
  | enq (msg : String) (priority : Int)
  | deq
deriving Repr, DecidableEq

/-- Apply one queue operation. -/
def stepOp (s : QueueState) : QOp → QueueState
  | .enq msg priority => (enqueue s msg priority).1
  | .deq => (dequeue s).1

/-- Run a sequence of queue operations from the freshly constructed
queue. -/
def runOps (ops : List QOp) : QueueState :=
  ops.foldl stepOp { queue := [], counter := 0 }

/-- The strict queue order: higher priority first, ties broken by earlier
arrival. -/
def qBefore (a b : QueuedMessage) : Prop :=
  b.priority < a.priority ∨ (a.priority = b.priority ∧ a.arrival < b.arrival)

instance : DecidablePred fun ab : QueuedMessage × QueuedMessage => qBefore ab.1 ab.2 :=
  fun _ => by unfold qBefore; infer_instance

end HL7Queue

/-- Model of the Python substring test `needle in hay`. -/
def pyInStr (needle hay : String) : Bool := decide (needle.data <:+: hay.data)

/-- Model of Python `str.split(sep)` on character lists: always returns
at least one (possibly empty) part. -/
def splitOnChar (sep : Char) : List Char → List (List Char)
  | [] => [[]]
  | c :: cs =>
      match splitOnChar sep cs with
      | [] => [[]]
      | p :: ps => if c = sep then [] :: p :: ps else (c :: p) :: ps

/-- Model of Python `str.split(sep)` for a one-character separator. -/
def pySplit (sep : Char) (s : String) : List String :=
  (splitOnChar sep s.data).map (fun l => ⟨l⟩)

/-- Python `not line.strip()`: the line is empty or all whitespace. -/
def pyIsBlank (s : String) : Bool := s.data.all (fun c => c.isWhitespace)

/-- Model of Python `str.isupper` for ASCII text: at least one letter and
no lowercase letter. -/
def pyIsUpper (s : String) : Bool :=
  s.data.any Char.isAlpha && s.data.all (fun c => !c.isLower)

/-- Python `s.replace("-", "")`. -/
def removeDashes (s : String) : String := ⟨s.data.filter (fun c => c != '-')⟩

namespace HL7

/-- One parsed segment as produced by `HL7Parser._segment_to_dict`: the
`fields` association maps the field position `i` (dictionary key
`SEG_i`) to the field string; only non-empty values are stored (the
`if field.value` filter). -/
structure Seg where
  segment_id : String
  fields : List (Nat × String)
deriving Repr, DecidableEq

/-- Build a segment dictionary from raw positioned values, dropping the
empty ones as `_segment_to_dict` does. -/
def mkSeg (id : String) (raw : List (Nat × String)) : Seg :=
  ⟨id, raw.filter (fun f => f.2 != "")⟩

/-- `fields.get(f"SEG_i", d)`. -/
def Seg.getF (s : Seg) (i : Nat) (d : String := "") : String :=
  match s.fields.find? (fun f => f.1 == i) with
  | some f => f.2
  | none => d

/-- The `HL7Message` dataclass (`timestamp` and `raw_message`, which no
extraction step reads, are not modelled). -/
structure HL7Message where
  message_type : String
  message_id : String
  sending_application : String
  sending_facility : String
  receiving_application : String
  receiving_facility : String
  segments : List Seg
deriving Repr, DecidableEq

/-- Patient address sub-dictionary of the builder input. -/
structure HAddress where
  street : String
  city : String
  state : String
  zip : String
deriving Repr, DecidableEq

/-- Patient sub-dictionary of the builder input.  A missing `gender`
would default to `"U"` in the source; an empty `gender`, on which the
source `upper()[0]` would raise, is outside the valid inputs considered
by the round-trip theorem. -/
structure HPatient where
  id : String
  mrn : String
  first_name : String
  last_name : String
  dob : String
  gender : String
  phone : Option String := none
  address : Option HAddress := none
deriving Repr, DecidableEq

/-- Practitioner sub-dictionary of the builder input. -/
structure HPractitioner where
  npi : String
  first_name : String
  last_name : String
deriving Repr, DecidableEq

/-- Medication entry of the builder input (`quantity` is passed as a
string in the source usage; `refills` is an integer, included in RXE-12
only when truthy). -/
structure HMed where
  rxnorm_code : String
  name : String
  quantity : String
  dosage_instruction : String
  refills : Nat
deriving Repr, DecidableEq

/-- The prescription dictionary fed to
`HL7MessageBuilder.build_rde_o11_message`.  An absent or empty
practitioner dictionary (both falsy) is `none`. -/
structure HPrescription where
  prescription_id : String
  patient : HPatient
  practitioner : Option HPractitioner := none
  medications : List HMed
deriving Repr, DecidableEq

/-- The positioned MSH field values assigned by the builder (MSH-1/MSH-2
are the delimiters hl7apy materialises; the MSH dictionary is never read
by the extractor). -/
def mshRaw (now : String) (p : HPrescription) : List (Nat × String) :=
  [(1, "|"), (2, "^~\\&"), (3, "HEALTHFLOW"), (4, "HEALTHFLOW_AI"),
   (5, "PHARMACY_SYS"), (6, "PHARMACY"), (7, now), (9, "RDE^O11^RDE_O11"),
   (10, p.prescription_id), (11, "P"), (12, "2.5")]

/-- The positioned PID field values assigned by the builder. -/
def pidRaw (p : HPrescription) : List (Nat × String) :=
  [(1, "1"), (2, p.patient.mrn), (3, p.patient.id),
   (5, p.patient.last_name ++ "^" ++ p.patient.first_name),
   (7, removeDashes p.patient.dob),
   (8, pyTake 1 (pyUpper p.patient.gender))] ++
  (match p.patient.address with
   | some a => [(11, a.street ++ "^^" ++ a.city ++ "^" ++ a.state ++ "^" ++ a.zip)]
   | none => []) ++
  (match p.patient.phone with
   | some ph => if ph != "" then [(13, "^PRN^PH^^^" ++ ph)] else []
   | none => [])

/-- The positioned ORC field values assigned by the builder. -/
def orcRaw (now : String) (p : HPrescription) : List (Nat × String) :=
  [(1, "NW"), (2, p.prescription_id), (9, now)] ++
  (match p.practitioner with
   | some pr => [(12, pr.npi ++ "^" ++ pr.last_name ++ "^" ++ pr.first_name)]
   | none => [])

/-- The positioned RXE field values assigned by the builder for one
medication. -/
def rxeRaw (m : HMed) : List (Nat × String) :=
  [(1, "1"), (2, m.rxnorm_code ++ "^" ++ m.name ++ "^RXN"),
   (3, m.quantity), (5, m.dosage_instruction), (6, "TAB")] ++
  (if m.refills != 0 then [(12, toString m.refills)] else [])

/-- `HL7MessageBuilder.build_rde_o11_message` composed with
`HL7Parser.parse_message` of its `to_er7` output.  The external hl7apy
serialise/parse pair is modelled as preserving the positional field
structure of the built message, so each segment dictionary keeps every
non-empty field at its position key; `now` stands for the
`%Y%m%d%H%M%S` timestamp written into MSH-7 and ORC-9. -/
def build_and_parse_rde_o11 (now : String) (p : HPrescription) : HL7Message :=
  let msh := mkSeg "MSH" (mshRaw now p)
  let pid := mkSeg "PID" (pidRaw p)
  let orc := mkSeg "ORC" (orcRaw now p)
  let rxes := p.medications.map fun m => mkSeg "RXE" (rxeRaw m)
  { message_type := "RDE"
    message_id := p.prescription_id
    sending_application := "HEALTHFLOW"
    sending_facility := "HEALTHFLOW_AI"
    receiving_application := "PHARMACY_SYS"
    receiving_facility := "PHARMACY"
    segments := [msh, pid, orc] ++ rxes }

/-- `HL7Parser._find_segment`. -/
def find_segment (segs : List Seg) (id : String) : Option Seg :=
  segs.find? (fun s => s.segment_id == id)

/-- `HL7Parser._find_all_segments`. -/
def find_all_segments (segs : List Seg) (id : String) : List Seg :=
  segs.filter (fun s => s.segment_id == id)

/-- Patient address dictionary produced by the extractor. -/
structure HAddressOut where
  street : String
  city : String
  state : String
  zip : String
deriving Repr, DecidableEq

/-- Patient dictionary produced by `_extract_patient_from_pid`. -/
structure HPatientOut where
  id : String
  mrn : String
  last_name : String
  first_name : String
  dob : String
  gender : String
  phone : Option String
  address : HAddressOut
deriving Repr, DecidableEq

/-- `HL7Parser._extract_patient_from_pid`. -/
def extract_patient_from_pid (seg : Seg) : HPatientOut :=
  let name_parts := pySplit '^' (seg.getF 5)
  let address_parts := pySplit '^' (seg.getF 11)
  let phone_field := seg.getF 13
  { id := seg.getF 3
    mrn := seg.getF 2
    last_name := name_parts.headD ""
    first_name := (name_parts.get? 1).getD ""
    dob := seg.getF 7
    gender := seg.getF 8 "U"
    phone := if phone_field != "" then some ((pySplit '^' phone_field).getLastD "")
             else none
    address := { street := address_parts.headD ""
                 city := (address_parts.get? 2).getD ""
                 state := (address_parts.get? 3).getD ""
                 zip := (address_parts.get? 4).getD "" } }

/-- Practitioner dictionary produced by `_extract_practitioner_from_orc`. -/
structure HPractitionerOut where
  npi : String
  last_name : String
  first_name : String
deriving Repr, DecidableEq

/-- `HL7Parser._extract_practitioner_from_orc`. -/
def extract_practitioner_from_orc (seg : Seg) : HPractitionerOut :=
  let parts := pySplit '^' (seg.getF 12)
  { npi := parts.headD ""
    last_name := (parts.get? 1).getD ""
    first_name := (parts.get? 2).getD "" }

/-- The RXE-12 value as read by `fields.get("RXE_12", 0)`: the integer
`0` when the key is absent, otherwise the field string. -/
inductive RefillsVal where
  | intZero
  | strVal (s : String)
deriving Repr, DecidableEq

/-- Medication dictionary produced by `_extract_medication_from_rxe`. -/
structure HMedOut where
  rxnorm_code : String
  name : String
  quantity : String
  dosage_instruction : String
  dosage_form : String
  refills : RefillsVal
deriving Repr, DecidableEq

/-- `HL7Parser._extract_medication_from_rxe`. -/
def extract_medication_from_rxe (seg : Seg) : HMedOut :=
  let med_parts := pySplit '^' (seg.getF 2)
  { rxnorm_code := med_parts.headD ""
    name := (med_parts.get? 1).getD ""
    quantity := seg.getF 3
    dosage_instruction := seg.getF 5
    dosage_form := seg.getF 6
    refills := match seg.fields.find? (fun f => f.1 == 12) with
               | some f => .strVal f.2
               | none => .intZero }

/-- Prescription dictionary produced by `extract_prescription_data`; the
patient/practitioner sub-dictionaries stay the initial `{}` (`none`)
when no PID/ORC segment exists. -/
structure HPrescriptionOut where
  prescription_id : String
  patient : Option HPatientOut
  practitioner : Option HPractitionerOut
  medications : List HMedOut
deriving Repr, DecidableEq

/-- `HL7Parser.extract_prescription_data`: raises `ValueError` unless
the message type is RDE. -/
def extract_prescription_data (m : HL7Message) : Outcome HPrescriptionOut :=
  if m.message_type != "RDE" then
    .raised ("Expected RDE message, got " ++ m.message_type)
  else
    .ok { prescription_id := m.message_id
          patient := (find_segment m.segments "PID").map extract_patient_from_pid
          practitioner := (find_segment m.segments "ORC").map extract_practitioner_from_orc
          medications := (find_all_segments m.segments "RXE").map extract_medication_from_rxe }

/-- `HL7Parser.parse_message`: the hl7apy grammar parse plus MSH field
extraction is the parameter `lib`; the source `except` clause logs and
re-raises, so a grammar failure propagates to the caller instead of
being returned as a structured value. -/
def parse_message (lib : String → Outcome HL7Message) (s : String) : Outcome HL7Message :=
  match lib s with
  | .raised e => .raised e
  | .ok m => .ok m

/-- Modelled behaviour of the external
`hl7apy.parser.parse_message(..., STRICT)` call: it raises its
`"Invalid message"` error on a payload lacking an MSH header.  Only the
success/failure split matters to the claims; the message content on
success is irrelevant here. -/
def hl7apyParseModel (s : String) : Outcome HL7Message :=
  if pyStartsWith s "MSH" then
    .ok { message_type := "", message_id := "", sending_application := ""
          sending_facility := "", receiving_application := ""
          receiving_facility := "", segments := [] }
  else .raised "Invalid message"

/-- The grammar-parser abstraction used by `validate_message`: `none`
when the hl7apy parse succeeds, the `ParserError` text otherwise. -/
def hl7apyLib (s : String) : Option String :=
  match hl7apyParseModel s with
  | .ok _ => none
  | .raised e => some e

/-- The per-line structural checks of `HL7Validator.validate_message`
(`i` is the zero-based line index; the surrounding single quotes of the
source invalid-segment message are omitted). -/
def segmentErrorsFrom : Nat → List String → List String
  | _, [] => []
  | i, line :: rest =>
      let here :=
        if pyIsBlank line then []
        else if line.length < 3 then
          ["Line " ++ toString (i + 1) ++ ": Segment too short"]
        else if !(pyIsUpper (pyTake 3 line)) then
          ["Line " ++ toString (i + 1) ++ ": Invalid segment ID " ++ pyTake 3 line]
        else []
      here ++ segmentErrorsFrom (i + 1) rest

/-- All per-line structural errors. -/
def segmentErrors (lines : List String) : List String := segmentErrorsFrom 0 lines

/-- `HL7Validator.validate_message`: the empty-message early return, then
the structural checks in source order, then the grammar-level parse
(abstracted as `lib`) whose error is appended last. -/
def validate_message (lib : String → Option String) (s : String) : Bool × List String :=
  if s == "" then (false, ["Empty message"])
  else
    let e1 := if !(pyStartsWith s "MSH") then ["Message must start with MSH segment"] else []
    let lines := pySplit '\r' s
    let e2 := if lines.length < 2 then ["Message must contain at least 2 segments"] else []
    let e3 := segmentErrors lines
    let e4 := match lib s with
              | some e => ["Parsing error: " ++ e]
              | none => []
    let errors := e1 ++ e2 ++ e3 ++ e4
    (errors.isEmpty, errors)

/-- The composite-free side condition for the HL7 round trip: no packed
string component contains the `^` separator (a value containing the
component separator cannot survive any positional codec). -/
def noCaret (s : String) : Bool := !(s.data.contains '^')

/-- Delimiter discipline for every field the builder packs into a
`^`-composite. -/
def hl7DelimiterFree (p : HPrescription) : Bool :=
  noCaret p.patient.last_name && noCaret p.patient.first_name &&
  (match p.patient.phone with | some ph => noCaret ph | none => true) &&
  (match p.patient.address with
   | some a => noCaret a.street && noCaret a.city && noCaret a.state && noCaret a.zip
   | none => true) &&
  (match p.practitioner with
   | some pr => noCaret pr.npi && noCaret pr.last_name && noCaret pr.first_name
   | none => true) &&
  p.medications.all (fun m => noCaret m.rxnorm_code && noCaret m.name)

/-- Round trip of the HL7 codec: build the RDE^O11 message, serialise
and re-parse (modelled structurally), then extract. -/
def hl7RoundTrip (now : String) (p : HPrescription) : Outcome HPrescriptionOut :=
  extract_prescription_data (build_and_parse_rde_o11 now p)

/-- What the HL7 round trip actually returns: hyphens stripped from the
date of birth, gender reduced to the first letter of its uppercasing,
refills stringified (with `0` decoding to the integer default), a
constant `TAB` dosage form added, and an absent practitioner or address
decoded as a dictionary of empty strings. -/
def hl7RoundExpected (p : HPrescription) : HPrescriptionOut :=
  { prescription_id := p.prescription_id
    patient := some
      { id := p.patient.id
        mrn := p.patient.mrn
        last_name := p.patient.last_name
        first_name := p.patient.first_name
        dob := removeDashes p.patient.dob
        gender := pyTake 1 (pyUpper p.patient.gender)
        phone := (match p.patient.phone with
                  | some ph => if ph != "" then some ph else none
                  | none => none)
        address := match p.patient.address with
          | some a => ⟨a.street, a.city, a.state, a.zip⟩
          | none => ⟨"", "", "", ""⟩ }
    practitioner := some (match p.practitioner with
      | some pr => ⟨pr.npi, pr.last_name, pr.first_name⟩
      | none => ⟨"", "", ""⟩)
    medications := p.medications.map fun m =>
      { rxnorm_code := m.rxnorm_code
        name := m.name
        quantity := m.quantity
        dosage_instruction := m.dosage_instruction
        dosage_form := "TAB"
        refills := if m.refills = 0 then .intZero else .strVal (toString m.refills) } }

end HL7

namespace FHIR

/-- `FHIRResourceBuilder.SYSTEM_RXNORM`. -/
def SYSTEM_RXNORM : String := "http://www.nlm.nih.gov/research/umls/rxnorm"

/-- `FHIRResourceBuilder.SYSTEM_SNOMED`. -/
def SYSTEM_SNOMED : String := "http://snomed.info/sct"

/-- `FHIRResourceBuilder.SYSTEM_NPI`. -/
def SYSTEM_NPI : String := "http://hl7.org/fhir/sid/us-npi"

/-- Patient address sub-dictionary of the converter input (a `country`
key, read with default `"US"` and never decoded, is not modelled). -/
structure AddressIn where
  street : String
  city : String
  state : String
  zip : String
deriving Repr, DecidableEq

/-- Patient sub-dictionary of the converter input. -/
structure PatientIn where
  id : String
  first_name : String
  last_name : String
  dob : String
  gender : String
  phone : Option String := none
  email : Option String := none
  address : Option AddressIn := none
  mrn : Option String := none
deriving Repr, DecidableEq

/-- Practitioner sub-dictionary of the converter input. -/
structure PractitionerIn where
  id : String
  first_name : String
  last_name : String
  npi : String
  specialty : Option String := none
  phone : Option String := none
deriving Repr, DecidableEq

/-- Medication entry of the converter input. -/
structure MedicationIn where
  id : String
  name : String
  rxnorm_code : String
  dosage_instruction : String
  quantity : Option Int := none
  refills : Option Int := none
  notes : Option String := none
deriving Repr, DecidableEq

/-- The prescription dictionary fed to
`FHIRConverter.prescription_to_fhir`. -/
structure PrescriptionIn where
  patient : PatientIn
  practitioner : PractitionerIn
  medications : List MedicationIn
deriving Repr, DecidableEq

/-- A FHIR `Coding`. -/
structure Coding where
  system : String
  code : String
  display : String
deriving Repr, DecidableEq

/-- A FHIR `Identifier` (`use` and the full `type` concept are flattened
to the parts the code reads: `typeCoding` is `type.coding`). -/
structure IdentifierRes where
  system : String
  value : String
  typeCoding : List Coding := []
deriving Repr, DecidableEq

/-- A FHIR `HumanName`. -/
structure HumanNameRes where
  family : String
  given : List String
  prefixes : List String := []
deriving Repr, DecidableEq

/-- A FHIR `ContactPoint`. -/
structure ContactPointRes where
  system : String
  value : String
  useCode : String
deriving Repr, DecidableEq

/-- A FHIR `Address` as built by the encoder. -/
structure AddressRes where
  line : List String
  city : String
  state : String
  postalCode : String
  country : String
  useCode : String
deriving Repr, DecidableEq

/-- The FHIR Patient resource (fields the codec writes or reads). -/
structure PatientRes where
  id : String
  identifier : List IdentifierRes
  name : List HumanNameRes
  telecom : List ContactPointRes
  address : List AddressRes
  birthDate : String
  gender : String
deriving Repr, DecidableEq

/-- A practitioner qualification entry (its `code.coding` list). -/
structure QualificationRes where
  coding : List Coding
deriving Repr, DecidableEq

/-- The FHIR Practitioner resource (fields the codec writes or reads). -/
structure PractitionerRes where
  id : String
  identifier : List IdentifierRes
  name : List HumanNameRes
  telecom : List ContactPointRes
  qualification : List QualificationRes
deriving Repr, DecidableEq

/-- A FHIR `CodeableConcept` with its display text. -/
structure CodeableConceptRes where
  coding : List Coding
  text : String
deriving Repr, DecidableEq

/-- The dispense-request quantity dictionary. -/
structure QuantityRes where
  value : Int
  unit : String
  system : String
  code : String
deriving Repr, DecidableEq

/-- The dispense-request dictionary. -/
structure DispenseRequestRes where
  quantity : Option QuantityRes := none
  numberOfRepeatsAllowed : Option Int := none
deriving Repr, DecidableEq

/-- One dosage instruction (the constant `timing` dictionary, which is
never decoded, is not modelled; `routeCoding` is `route.coding`). -/
structure DosageRes where
  text : String
  routeCoding : List Coding
deriving Repr, DecidableEq

/-- A note entry. -/
structure NoteRes where
  text : String
  authorReference : String
deriving Repr, DecidableEq

/-- The FHIR MedicationRequest resource (fields the codec writes or
reads; `authoredOn`, a clock value never decoded, is not modelled). -/
structure MedicationRequestRes where
  id : String
  status : String
  intent : String
  medicationCodeableConcept : CodeableConceptRes
  subject : String
  requester : String
  dosageInstruction : List DosageRes
  dispenseRequest : Option DispenseRequestRes
  note : List NoteRes
deriving Repr, DecidableEq

/-- A bundle entry resource, dispatched on `resourceType`. -/
inductive Resource where
  | patient (p : PatientRes)
  | practitioner (p : PractitionerRes)
  | medicationRequest (m : MedicationRequestRes)
deriving Repr, DecidableEq

/-- A FHIR Bundle (the per-entry `request` stanza and the bundle
timestamp, never decoded, are not modelled). -/
structure Bundle where
  btype : String
  entry : List Resource
deriving Repr, DecidableEq

/-- `FHIRResourceBuilder.build_patient_resource`.  The `if phone:` /
`if email:` / `if mrn:` guards are Python truthiness checks, so an empty
string behaves like an absent key. -/
def build_patient_resource (patient_id first_name last_name dob gender : String)
    (phone email : Option String) (address : Option AddressIn)
    (mrn : Option String) : PatientRes :=
  let identifiers :=
    [{ system := "http://healthflow.ai/patient-id", value := patient_id : IdentifierRes }] ++
    (match mrn with
     | some m =>
         if m != "" then
           [{ system := "http://healthflow.ai/mrn", value := m,
              typeCoding := [⟨"http://terminology.hl7.org/CodeSystem/v2-0203", "MR",
                              "Medical Record Number"⟩] }]
         else []
     | none => [])
  let telecom :=
    (match phone with
     | some ph => if ph != "" then [⟨"phone", ph, "mobile"⟩] else []
     | none => []) ++
    (match email with
     | some em => if em != "" then [⟨"email", em, "home"⟩] else []
     | none => [])
  let addresses : List AddressRes :=
    match address with
    | some a => [{ line := [a.street], city := a.city, state := a.state,
                   postalCode := a.zip, country := "US", useCode := "home" }]
    | none => []
  { id := patient_id
    identifier := identifiers
    name := [{ family := last_name, given := [first_name] }]
    telecom := telecom
    address := addresses
    birthDate := dob
    gender := pyLower gender }

/-- `FHIRResourceBuilder._map_specialty_code`. -/
def map_specialty_code (specialty : String) : String :=
  if specialty == "Family Medicine" then "207Q00000X"
  else if specialty == "Internal Medicine" then "207R00000X"
  else if specialty == "Pediatrics" then "208000000X"
  else if specialty == "Cardiology" then "207RC0000X"
  else if specialty == "Dermatology" then "207N00000X"
  else if specialty == "Emergency Medicine" then "207P00000X"
  else if specialty == "Psychiatry" then "2084P0800X"
  else "208D00000X"

/-- `FHIRResourceBuilder.build_practitioner_resource`. -/
def build_practitioner_resource (practitioner_id first_name last_name npi : String)
    (specialty phone : Option String) : PractitionerRes :=
  { id := practitioner_id
    identifier := [{ system := SYSTEM_NPI, value := npi : IdentifierRes },
                   { system := "http://healthflow.ai/practitioner-id",
                     value := practitioner_id }]
    name := [{ family := last_name, given := [first_name], prefixes := ["Dr."] }]
    telecom := (match phone with
                | some ph => if ph != "" then [⟨"phone", ph, "work"⟩] else []
                | none => [])
    qualification := (match specialty with
                      | some sp =>
                          if sp != "" then
                            [⟨[⟨"http://nucc.org/provider-taxonomy",
                                map_specialty_code sp, sp⟩]⟩]
                          else []
                      | none => []) }

/-- `FHIRResourceBuilder.build_medication_request`.  `if quantity:` is a
truthiness check (`0` and `None` both omit the quantity entry), while
`if refills is not None:` is a presence check. -/
def build_medication_request (request_id patient_reference practitioner_reference
    medication_name medication_code dosage_instruction : String)
    (quantity refills : Option Int) (notes : Option String) : MedicationRequestRes :=
  let qEntry : Option QuantityRes :=
    match quantity with
    | some q =>
        if q != 0 then
          some ⟨q, "tablet", "http://unitsofmeasure.org", "\x7btablet\x7d"⟩
        else none
    | none => none
  let dispenseRequest : Option DispenseRequestRes :=
    if qEntry.isSome || refills.isSome then
      some { quantity := qEntry, numberOfRepeatsAllowed := refills }
    else none
  let note : List NoteRes :=
    match notes with
    | some n => if n != "" then [⟨n, practitioner_reference⟩] else []
    | none => []
  { id := request_id
    status := "active"
    intent := "order"
    medicationCodeableConcept := ⟨[⟨SYSTEM_RXNORM, medication_code, medication_name⟩],
                                  medication_name⟩
    subject := patient_reference
    requester := practitioner_reference
    dosageInstruction := [⟨dosage_instruction, [⟨SYSTEM_SNOMED, "26643006", "Oral route"⟩]⟩]
    dispenseRequest := dispenseRequest
    note := note }

/-- `FHIRConverter.prescription_to_fhir` (including
`FHIRResourceBuilder.build_bundle` with type `transaction`). -/
def prescription_to_fhir (p : PrescriptionIn) : Bundle :=
  let patient := build_patient_resource p.patient.id p.patient.first_name
    p.patient.last_name p.patient.dob p.patient.gender p.patient.phone
    p.patient.email p.patient.address p.patient.mrn
  let practitioner := build_practitioner_resource p.practitioner.id
    p.practitioner.first_name p.practitioner.last_name p.practitioner.npi
    p.practitioner.specialty p.practitioner.phone
  let meds := p.medications.map fun m =>
    build_medication_request m.id ("Patient/" ++ p.patient.id)
      ("Practitioner/" ++ p.practitioner.id) m.name m.rxnorm_code
      m.dosage_instruction m.quantity m.refills m.notes
  { btype := "transaction"
    entry := [.patient patient, .practitioner practitioner] ++
             meds.map .medicationRequest }

/-- Decoded patient address: `street` defaults to `""`, the other keys
are plain `get` lookups. -/
structure AddressOut where
  street : String
  city : Option String
  state : Option String
  zip : Option String
deriving Repr, DecidableEq

/-- Patient dictionary produced by `_extract_patient_data`.  It has no
`mrn` key: the decoder never reads the MRN identifier back. -/
structure PatientOut where
  id : Option String
  first_name : String
  last_name : String
  dob : Option String
  gender : Option String
  phone : Option String
  email : Option String
  address : AddressOut
deriving Repr, DecidableEq

/-- `FHIRConverter._extract_patient_data`. -/
def extract_patient_data (r : PatientRes) : PatientOut :=
  let name := r.name.headD { family := "", given := [] }
  { id := some r.id
    first_name := name.given.headD ""
    last_name := name.family
    dob := some r.birthDate
    gender := some r.gender
    phone := (r.telecom.find? (fun t => t.system == "phone")).map (·.value)
    email := (r.telecom.find? (fun t => t.system == "email")).map (·.value)
    address := match r.address with
      | [] => { street := "", city := none, state := none, zip := none }
      | a :: _ => { street := a.line.headD "", city := some a.city,
                    state := some a.state, zip := some a.postalCode } }

/-- Practitioner dictionary produced by `_extract_practitioner_data`.
It has no `specialty` key: the qualification is never read back. -/
structure PractitionerOut where
  id : Option String
  first_name : String
  last_name : String
  npi : Option String
  phone : Option String
deriving Repr, DecidableEq

/-- `FHIRConverter._extract_practitioner_data` (`"npi" in system.lower()`
is a substring test on each identifier in order). -/
def extract_practitioner_data (r : PractitionerRes) : PractitionerOut :=
  let name := r.name.headD { family := "", given := [] }
  { id := some r.id
    first_name := name.given.headD ""
    last_name := name.family
    npi := (r.identifier.find?
              (fun i => pyInStr "npi" (pyLower i.system))).map (·.value)
    phone := (r.telecom.find? (fun t => t.system == "phone")).map (·.value) }

/-- Medication dictionary produced by `_extract_medication_data`. -/
structure MedicationOut where
  id : Option String
  name : Option String
  rxnorm_code : Option String
  dosage_instruction : Option String
  quantity : Option Int
  refills : Option Int
deriving Repr, DecidableEq

/-- `FHIRConverter._extract_medication_data` (`"rxnorm" in
system.lower()` is a substring test on each coding in order). -/
def extract_medication_data (r : MedicationRequestRes) : MedicationOut :=
  { id := some r.id
    name := some r.medicationCodeableConcept.text
    rxnorm_code := (r.medicationCodeableConcept.coding.find?
        (fun c => pyInStr "rxnorm" (pyLower c.system))).map (·.code)
    dosage_instruction := (r.dosageInstruction.head?).map (·.text)
    quantity := (r.dispenseRequest.bind (·.quantity)).map (·.value)
    refills := r.dispenseRequest.bind (·.numberOfRepeatsAllowed) }

/-- Prescription dictionary produced by `fhir_to_prescription`; the
patient/practitioner sub-dictionaries stay the initial `{}` (`none`)
when no resource of that type occurs. -/
structure PrescriptionOut where
  patient : Option PatientOut
  practitioner : Option PractitionerOut
  medications : List MedicationOut
deriving Repr, DecidableEq

/-- The per-entry dispatch of `FHIRConverter.fhir_to_prescription`
(later Patient/Practitioner entries overwrite earlier ones;
MedicationRequest entries append). -/
def foldEntry (acc : PrescriptionOut) : Resource → PrescriptionOut
  | .patient r => { acc with patient := some (extract_patient_data r) }
  | .practitioner r => { acc with practitioner := some (extract_practitioner_data r) }
  | .medicationRequest r =>
      { acc with medications := acc.medications ++ [extract_medication_data r] }

/-- `FHIRConverter.fhir_to_prescription`. -/
def fhir_to_prescription (b : Bundle) : PrescriptionOut :=
  b.entry.foldl foldEntry { patient := none, practitioner := none, medications := [] }

/-- Round trip of the FHIR codec. -/
def fhirRoundTrip (p : PrescriptionIn) : PrescriptionOut :=
  fhir_to_prescription (prescription_to_fhir p)

/-- What the FHIR round trip actually returns: gender lowercased, falsy
phone/email/quantity collapsed to absent, and the patient `mrn`, the
practitioner `specialty` and the medication `notes` dropped entirely. -/
def fhirRoundExpected (p : PrescriptionIn) : PrescriptionOut :=
  { patient := some
      { id := some p.patient.id
        first_name := p.patient.first_name
        last_name := p.patient.last_name
        dob := some p.patient.dob
        gender := some (pyLower p.patient.gender)
        phone := (match p.patient.phone with
                  | some ph => if ph != "" then some ph else none
                  | none => none)
        email := (match p.patient.email with
                  | some em => if em != "" then some em else none
                  | none => none)
        address := match p.patient.address with
          | some a => { street := a.street, city := some a.city,
                        state := some a.state, zip := some a.zip }
          | none => { street := "", city := none, state := none, zip := none } }
    practitioner := some
      { id := some p.practitioner.id
        first_name := p.practitioner.first_name
        last_name := p.practitioner.last_name
        npi := some p.practitioner.npi
        phone := (match p.practitioner.phone with
                  | some ph => if ph != "" then some ph else none
                  | none => none) }
    medications := p.medications.map fun m =>
      { id := some m.id
        name := some m.name
        rxnorm_code := some m.rxnorm_code
        dosage_instruction := some m.dosage_instruction
        quantity := (match m.quantity with
                     | some q => if q != 0 then some q else none
                     | none => none)
        refills := m.refills } }

end FHIR

/-- A connector whose every call fails with the given message. -/
def failingConnector (msg : String) : EHRSync.Connector :=
  { get_patient := fun _ => .raised msg
    get_medications := fun _ => .raised msg
    create_prescription := fun _ => .raised msg }

/-- A registry holding only the always-failing connector for the given
system. -/
def failingService (ehr msg : String) : EHRSync.Service :=
  EHRSync.register_connector [] ehr (failingConnector msg)

/-- The exact canonical JSON payload of the spec example: doctor id,
patient id, diagnosis and one medication, with no `doctor_name` or
`patient_name` key. -/
def payloadC4 : Gateway.Payload :=
  { doctor_id := some "28501011234567"
    patient_id := some "29012011234567"
    diagnosis := some "Hypertension"
    medications := .meds [⟨"314076", "Lisinopril 10mg", 30⟩] }

/-- The spec example payload extended with the two name keys the gateway
also requires. -/
def payloadC4Ext (dn pn : String) : Gateway.Payload :=
  { payloadC4 with doctor_name := some dn, patient_name := some pn }

/-- The queue invariant maintained by every operation sequence: the
queue is ordered by priority descending with arrival-order tie-breaks,
and all arrivals predate the clock counter. -/
def QInv (s : HL7Queue.QueueState) : Prop :=
  s.queue.Pairwise HL7Queue.qBefore ∧ ∀ m ∈ s.queue, m.arrival < s.counter

/-- A minimal connector that implements only the required capabilities
(no `get_allergies`, no `get_conditions`). -/
def c9Connector : EHRSync.Connector :=
  { get_patient := fun _ => .ok {}
    get_medications := fun _ => .ok []
    create_prescription := fun _ => .ok {} }

/-- A registry holding only `c9Connector` under the key `cerner`. -/
def c9Service : EHRSync.Service :=
  EHRSync.register_connector [] "cerner" c9Connector

/-- A concrete valid canonical prescription carrying an MRN, mirroring
the sample data in `fhir_integration.py`. -/
def fhirP0 : FHIR.PrescriptionIn :=
  { patient := { id := "patient-123", first_name := "John", last_name := "Doe",
                 dob := "1980-01-15", gender := "male", phone := some "555-1234",
                 email := some "john.doe@email.com", mrn := some "MRN123456" }
    practitioner := { id := "pract-456", first_name := "Jane", last_name := "Smith",
                      npi := "1234567890", specialty := some "Family Medicine",
                      phone := some "555-5678" }
    medications := [{ id := "med-req-789", name := "Lisinopril 10mg",
                      rxnorm_code := "314076",
                      dosage_instruction := "Take 1 tablet by mouth daily",
                      quantity := some 30, refills := some 3 }] }

/-- The same prescription with the MRN removed. -/
def fhirP1 : FHIR.PrescriptionIn :=
  { fhirP0 with patient := { fhirP0.patient with mrn := none } }

/-- A concrete builder input mirroring the sample data in
`hl7_integration.py`. -/
def hl7P0 : HL7.HPrescription :=
  { prescription_id := "RX-20251011-001"
    patient := { id := "PAT-123", mrn := "MRN-456", first_name := "John",
                 last_name := "Doe", dob := "1980-01-15", gender := "male",
                 phone := some "5551234567",
                 address := some { street := "123 Main St", city := "Boston",
                                   state := "MA", zip := "02101" } }
    practitioner := some { npi := "1234567890", first_name := "Jane", last_name := "Smith" }
    medications := [{ rxnorm_code := "314076", name := "Lisinopril 10mg",
                      quantity := "30",
                      dosage_instruction := "Take 1 tablet by mouth daily",
                      refills := 3 }] }

/-! ### Helper lemmas -/

theorem pyUpperChar_hex {c : Char} (h : c ∈ Gateway.hexLowerChars) :
    Gateway.isUpperHexDigit (pyUpperChar c) = true := by
  fin_cases h <;> decide

theorem matchesTxPattern_generate (date uuid : String)
    (h1 : date.data.length = 8) (h2 : date.data.all Char.isDigit = true)
    (h3 : 8 ≤ uuid.data.length)
    (h4 : ∀ c ∈ uuid.data.take 8, c ∈ Gateway.hexLowerChars) :
    Gateway.matchesTxPattern (Gateway.generate_tx_id date uuid) = true := by
  have hdata : (Gateway.generate_tx_id date uuid).data =
      'R' :: 'X' :: '-' :: (date.data ++ '-' :: (uuid.data.take 8).map pyUpperChar) := by
    simp [Gateway.generate_tx_id, pyUpper, pyTake, String.data_append, List.append_assoc]
  set hex := (uuid.data.take 8).map pyUpperChar with hhexdef
  have htake8 : (date.data ++ '-' :: hex).take 8 = date.data := by
    rw [← h1, List.take_left]
  have hdrop8 : (date.data ++ '-' :: hex).drop 8 = '-' :: hex := by
    rw [← h1, List.drop_left]
  have hdrop9 : (date.data ++ '-' :: hex).drop 9 = hex := by
    have h' := congrArg (List.drop 1) hdrop8
    rw [List.drop_drop] at h'
    simpa using h'
  have hlenhex : hex.length = 8 := by
    rw [hhexdef, List.length_map, List.length_take]
    exact Nat.min_eq_left h3
  have hallhex : hex.all Gateway.isUpperHexDigit = true := by
    rw [hhexdef, List.all_map]
    exact List.all_eq_true.mpr fun c hc => pyUpperChar_hex (h4 c hc)
  unfold Gateway.matchesTxPattern
  rw [hdata]
  rw [show ('R' :: 'X' :: '-' :: (date.data ++ '-' :: hex)).take 3 = ['R', 'X', '-'] from rfl,
      show ('R' :: 'X' :: '-' :: (date.data ++ '-' :: hex)).drop 3 =
        date.data ++ '-' :: hex from rfl,
      show ('R' :: 'X' :: '-' :: (date.data ++ '-' :: hex)).drop 11 =
        (date.data ++ '-' :: hex).drop 8 from rfl,
      show ('R' :: 'X' :: '-' :: (date.data ++ '-' :: hex)).drop 12 =
        (date.data ++ '-' :: hex).drop 9 from rfl,
      htake8, hdrop8, hdrop9]
  simp [h1, h2, hlenhex, hallhex]

/-! ### C2: empty medications list -/

/-- C2 (amended): for the JSON format, a payload whose medications key
holds an empty list is always REJECTED with an error entry for field
`medications`.  (The other formats never inspect `medications`.) -/
theorem c2_empty_medications_rejected (vsvc : Option Gateway.VService)
    (sid date uuid : String) (p : Gateway.Payload)
    (h : p.medications = .meds []) :
    (Gateway.submit_prescription vsvc sid date uuid p .json).status = .rejected ∧
    ∃ l, (Gateway.submit_prescription vsvc sid date uuid p .json).errors = some l ∧
      Gateway.ErrorEntry.fieldError "medications" "At least one medication required" ∈ l := by
  have hmed : Gateway.medicationsErrors p =
      [.fieldError "medications" "At least one medication required"] := by
    simp [Gateway.medicationsErrors, h]
  have hbase : Gateway.baseErrors p .json = Gateway.requiredFieldErrors p ++
      [.fieldError "medications" "At least one medication required"] := by
    simp [Gateway.baseErrors, hmed]
  have hne : (Gateway.baseErrors p .json).isEmpty = false := by
    rw [hbase]
    simp [List.isEmpty_iff]
  have hval : Gateway.validate_prescription vsvc p .json =
      .ok ⟨false, Gateway.baseErrors p .json⟩ := by
    unfold Gateway.validate_prescription
    cases vsvc with
    | none => simp [hne]
    | some svc => simp [hne]
  refine ⟨?_, Gateway.baseErrors p .json, ?_, ?_⟩
  · unfold Gateway.submit_prescription
    rw [hval]
    rfl
  · unfold Gateway.submit_prescription
    rw [hval]
    rfl
  · rw [hbase]
    exact List.mem_append_right _ (List.mem_singleton.mpr rfl)

/-- Witness for C2 at a concrete payload. -/
theorem c2_empty_medications_rejected_witness :
    (Gateway.submit_prescription none "sub-1" "20251012" "a1b2c3d4" { medications := .meds [] } .json).status = .rejected ∧
    ∃ l, (Gateway.submit_prescription none "sub-1" "20251012" "a1b2c3d4" { medications := .meds [] } .json).errors = some l ∧
      Gateway.ErrorEntry.fieldError "medications" "At least one medication required" ∈ l :=
  c2_empty_medications_rejected none "sub-1" "20251012" "a1b2c3d4" _ rfl

/-- C2 counterexample to the claim as stated: the same empty-medications
payload submitted under the declared HL7v2 format is TRANSMITTED, not
REJECTED (no format other than JSON checks medications). -/
theorem c2_counterexample :
    (Gateway.submit_prescription none "sub-1" "20251012" "a1b2c3d4"
        { medications := .meds [] } .hl7_v2).status = .transmitted := by decide

/-! ### C4: the spec example submission -/

/-- C4 counterexample: the exact payload of the spec example is REJECTED
because the gateway also requires `doctor_name` and `patient_name`. -/
theorem c4_counterexample :
    (Gateway.submit_prescription none "sub-1" "20251012"
        "a1b2c3d4-e5f6-0000-0000-000000000000" payloadC4 .json).status = .rejected ∧
    (Gateway.submit_prescription none "sub-1" "20251012"
        "a1b2c3d4-e5f6-0000-0000-000000000000" payloadC4 .json).status ≠ .transmitted ∧
    (Gateway.submit_prescription none "sub-1" "20251012"
        "a1b2c3d4-e5f6-0000-0000-000000000000" payloadC4 .json).errors =
      some [.fieldError "doctor_name" "Required field missing",
            .fieldError "patient_name" "Required field missing"] := by decide

/-- C4 (amended): the example payload extended with the required
`doctor_name` and `patient_name` keys is TRANSMITTED with a transaction
id matching `RX-\d{8}-[A-F0-9]{8}` (for any 8-digit UTC date and any
`uuid4` string, whose first eight characters are lowercase hex). -/
theorem c4_extended_payload_transmitted (dn pn sid date uuid : String)
    (h1 : date.data.length = 8) (h2 : date.data.all Char.isDigit = true)
    (h3 : 8 ≤ uuid.data.length)
    (h4 : ∀ c ∈ uuid.data.take 8, c ∈ Gateway.hexLowerChars) :
    (Gateway.submit_prescription none sid date uuid (payloadC4Ext dn pn) .json).status
        = .transmitted ∧
    Gateway.matchesTxPattern
      (Gateway.submit_prescription none sid date uuid (payloadC4Ext dn pn) .json).prescription_tx_id
        = true := by
  have hbase : Gateway.baseErrors (payloadC4Ext dn pn) .json = [] := by
    simp [Gateway.baseErrors, Gateway.requiredFieldErrors, Gateway.medicationsErrors,
      payloadC4Ext, payloadC4]
  have hval : Gateway.validate_prescription none (payloadC4Ext dn pn) .json =
      .ok ⟨true, []⟩ := by
    unfold Gateway.validate_prescription
    simp [hbase]
  constructor
  · unfold Gateway.submit_prescription
    rw [hval]
    rfl
  · unfold Gateway.submit_prescription
    rw [hval]
    exact matchesTxPattern_generate date uuid h1 h2 h3 h4

/-- Witness for C4 (amended) at concrete inputs. -/
theorem c4_extended_payload_transmitted_witness :
    (Gateway.submit_prescription none "sub-1" "20251012"
        "a1b2c3d4-e5f6-0000-0000-000000000000" (payloadC4Ext "Dr. Ahmed" "Mona") .json).status
        = .transmitted ∧
    Gateway.matchesTxPattern
      (Gateway.submit_prescription none "sub-1" "20251012"
        "a1b2c3d4-e5f6-0000-0000-000000000000" (payloadC4Ext "Dr. Ahmed" "Mona") .json).prescription_tx_id
        = true :=
  c4_extended_payload_transmitted "Dr. Ahmed" "Mona" "sub-1" "20251012"
    "a1b2c3d4-e5f6-0000-0000-000000000000" (by decide) (by decide) (by decide)
    (by decide)

/-! ### C5: structured errors versus raising -/

/-- C5 (amended): the gateway half of the propagation policy holds — a
raise from the injected validation collaborator is caught and surfaced
as a structured ERROR response — but `HL7Parser.parse_message` re-raises
a grammar-parse failure instead of returning a structured value. -/
theorem c5_structured_errors_amended :
    (∀ (svc : Gateway.VService) (sid date uuid : String) (p : Gateway.Payload)
        (f : Gateway.PrescriptionFormat) (e : String),
      (Gateway.baseErrors p f).isEmpty = true → svc p f = .raised e →
      Gateway.submit_prescription (some svc) sid date uuid p f =
        { submission_id := sid, prescription_tx_id := "", status := .error,
          message := "Submission error: " ++ e, errors := some [.bareError e] }) ∧
    (∀ (lib : String → Outcome HL7.HL7Message) (s e : String),
      lib s = .raised e → HL7.parse_message lib s = .raised e) := by
  constructor
  · intro svc sid date uuid p f e hempty hraise
    have hval : Gateway.validate_prescription (some svc) p f = .raised e := by
      unfold Gateway.validate_prescription
      simp [hempty, hraise]
    unfold Gateway.submit_prescription
    rw [hval]
  · intro lib s e h
    unfold HL7.parse_message
    rw [h]

/-- Witness for C5 (amended) at concrete inputs. -/
theorem c5_structured_errors_amended_witness :
    Gateway.submit_prescription (some fun _ _ => .raised "boom") "sub-1" "20251012"
        "a1b2c3d4" {} .hl7_v2 =
      { submission_id := "sub-1", prescription_tx_id := "", status := .error,
        message := "Submission error: boom", errors := some [.bareError "boom"] } ∧
    HL7.parse_message (fun _ => .raised "grammar") "RDE" = .raised "grammar" :=
  ⟨c5_structured_errors_amended.1 (fun _ _ => .raised "boom") "sub-1" "20251012"
      "a1b2c3d4" {} .hl7_v2 "boom" (by decide) rfl,
   c5_structured_errors_amended.2 (fun _ => .raised "grammar") "RDE" "grammar" rfl⟩

/-- C5 counterexample to the claim as stated: a codec parse failure is
raised to the caller, not returned as a structured error value. -/
theorem c5_counterexample :
    (HL7.parse_message HL7.hl7apyParseModel "GARBAGE").isRaised = true := by decide

/-! ### C7: structural validation of non-MSH messages -/

/-- C7 (amended): for every non-empty string not starting with `MSH`,
`validate_message` reports the message invalid with
`"Message must start with MSH segment"` as the very first error, ahead
of any grammar-parse error (the empty string instead short-circuits to
`"Empty message"`). -/
theorem c7_msh_error_first (lib : String → Option String) (s : String)
    (h1 : s ≠ "") (h2 : pyStartsWith s "MSH" = false) :
    (HL7.validate_message lib s).1 = false ∧
    (HL7.validate_message lib s).2.head? = some "Message must start with MSH segment" := by
  have hne : (s == "") = false := by
    simp [h1]
  unfold HL7.validate_message
  rw [hne]
  simp [h2]

/-- Witness for C7 at a concrete non-MSH message. -/
theorem c7_msh_error_first_witness :
    (HL7.validate_message HL7.hl7apyLib "XYZ|1").1 = false ∧
    (HL7.validate_message HL7.hl7apyLib "XYZ|1").2.head? =
      some "Message must start with MSH segment" :=
  c7_msh_error_first HL7.hl7apyLib "XYZ|1" (by decide) (by decide)

/-- C7 counterexample to the claim as stated: the empty string does not
start with `MSH` but is reported with `"Empty message"` only, never with
the MSH error. -/
theorem c7_counterexample :
    HL7.validate_message HL7.hl7apyLib "" = (false, ["Empty message"]) ∧
    "Message must start with MSH segment" ∉ ["Empty message"] := by decide

/-! ### C6: one job per (transaction, EHR system) pair -/

/-- C6 counterexample: scheduling the same (prescription, EHR) pair
twice leaves two pending jobs for the pair — nothing supersedes. -/
theorem c6_counterexample :
    (((EHRSync.schedule_sync
          ((EHRSync.schedule_sync [] "RX1" "epic" "payload" 3 "20250101000000").1)
          "RX1" "epic" "payload" 3 "20250101000001").1).filter
        (fun j => j.prescription_id == "RX1" && j.ehr_system == "epic" &&
          j.status == .pending)).length = 2 := by decide

/-- C6 (amended): `schedule_sync` unconditionally appends a fresh
pending job; it never removes or supersedes an existing job for the same
pair. -/
theorem c6_schedule_appends (jobs : List EHRSync.SyncJob)
    (pid ehr data : String) (rc : Nat) (now : String) :
    (EHRSync.schedule_sync jobs pid ehr data rc now).1 =
      jobs ++ [{ job_id := "sync-" ++ pid ++ "-" ++ now, prescription_id := pid,
                 ehr_system := ehr, prescription_data := data, retry_count := rc,
                 attempts := 0, status := .pending, result := none }] := rfl

/-! ### C9: missing optional get_allergies capability -/

/-- C9: for a registered connector without `get_allergies`, the patient
context comes back with `allergies = []` and the call does not raise on
account of the missing optional capability (the required capabilities
are assumed to succeed). -/
theorem c9_missing_allergies_empty (svc : EHRSync.Service) (ehr pid : String)
    (c : EHRSync.Connector) (pres : EHRSync.PatientResource)
    (meds : List EHRSync.MedResource)
    (hconn : EHRSync.get_connector svc ehr = .ok c)
    (hall : c.get_allergies = none)
    (hpat : c.get_patient pid = .ok pres)
    (hmed : c.get_medications pid = .ok meds) :
    ∃ ctx, EHRSync.get_patient_context svc ehr pid = .ok ctx ∧ ctx.allergies = [] := by
  unfold EHRSync.get_patient_context
  rw [hconn]
  dsimp only
  rw [hpat]
  dsimp only
  rw [hmed]
  dsimp only
  rw [hall]
  exact ⟨_, rfl, rfl⟩

/-- Witness for C9 on a concrete registry. -/
theorem c9_missing_allergies_empty_witness :
    ∃ ctx, EHRSync.get_patient_context c9Service "cerner" "p1" = .ok ctx ∧
      ctx.allergies = [] :=
  c9_missing_allergies_empty c9Service "cerner" "p1" c9Connector {} [] rfl rfl rfl rfl

/-! ### C3 and C10: the sync scheduler -/

theorem failingService_sync (ehr msg data : String) :
    EHRSync.sync_prescription (failingService ehr msg) ehr data =
      .ok { success := false, ehr_system := ehr, error := some msg } := by
  unfold EHRSync.sync_prescription EHRSync.get_connector failingService
    EHRSync.register_connector
  simp [failingConnector]

/-- C3: a job scheduled with `retry_count = 3` against an
always-failing connector is `pending` after the first and second
`process_sync_jobs` calls and `failed` after the third, with
`attempts = 3` and the terminal error recorded. -/
theorem c3_three_failures_then_failed (pid ehr data now msg : String) :
    ((EHRSync.process_sync_jobs (failingService ehr msg)
        ((EHRSync.schedule_sync [] pid ehr data 3 now).1)).1.map
      (fun j => (j.status, j.attempts)) = [(.pending, 1)]) ∧
    ((EHRSync.process_sync_jobs (failingService ehr msg)
        ((EHRSync.process_sync_jobs (failingService ehr msg)
          ((EHRSync.schedule_sync [] pid ehr data 3 now).1)).1)).1.map
      (fun j => (j.status, j.attempts)) = [(.pending, 2)]) ∧
    ((EHRSync.process_sync_jobs (failingService ehr msg)
        ((EHRSync.process_sync_jobs (failingService ehr msg)
          ((EHRSync.process_sync_jobs (failingService ehr msg)
            ((EHRSync.schedule_sync [] pid ehr data 3 now).1)).1)).1)).1.map
      (fun j => (j.status, j.attempts, j.result)) =
        [(.failed, 3, some (.errorWith msg))]) := by
  have hsync := failingService_sync ehr msg data
  refine ⟨?_, ?_, ?_⟩ <;>
    simp [EHRSync.schedule_sync, EHRSync.process_sync_jobs, EHRSync.process_one, hsync]

theorem process_one_counts (svc : EHRSync.Service) (j : EHRSync.SyncJob) :
    ((EHRSync.process_one svc j).2).processed = 1 ∧
    ((EHRSync.process_one svc j).2).succeeded + ((EHRSync.process_one svc j).2).failed +
      ((EHRSync.process_one svc j).2).retrying = 1 := by
  unfold EHRSync.process_one
  cases EHRSync.sync_prescription svc j.ehr_system j.prescription_data with
  | raised e => by_cases h : j.attempts + 1 < j.retry_count <;> simp [h]
  | ok r =>
      by_cases hs : r.success
      · simp [hs]
      · by_cases h : j.attempts + 1 < j.retry_count <;> simp [hs, h]

/-- C10: `process_sync_jobs` returns counters with
`processed = succeeded + failed + retrying`, and `processed` equals the
number of jobs that were pending when the call began. -/
theorem c10_process_counters (svc : EHRSync.Service) (jobs : List EHRSync.SyncJob) :
    ((EHRSync.process_sync_jobs svc jobs).2).processed =
      ((EHRSync.process_sync_jobs svc jobs).2).succeeded +
      ((EHRSync.process_sync_jobs svc jobs).2).failed +
      ((EHRSync.process_sync_jobs svc jobs).2).retrying ∧
    ((EHRSync.process_sync_jobs svc jobs).2).processed =
      (jobs.filter (fun j => j.status == .pending)).length := by
  induction jobs with
  | nil => simp [EHRSync.process_sync_jobs]
  | cons j js ih =>
      have hone := process_one_counts svc j
      by_cases h : j.status = .pending
      · simp only [EHRSync.process_sync_jobs, h, if_true, EHRSync.addResults,
          List.filter_cons, beq_iff_eq]
        constructor
        · simp only [hone.1]
          omega
        · simp [h, hone.1, ih.2]
          omega
      · simp only [EHRSync.process_sync_jobs, h, if_false, List.filter_cons, beq_iff_eq]
        constructor
        · exact ih.1
        · simp [h, ih.2]

/-! ### C8: the priority queue -/

theorem mem_insertByPriority (x y : HL7Queue.QueuedMessage)
    (l : List HL7Queue.QueuedMessage) :
    y ∈ HL7Queue.insertByPriority x l ↔ y = x ∨ y ∈ l := by
  induction l with
  | nil => simp [HL7Queue.insertByPriority]
  | cons z zs ih =>
      unfold HL7Queue.insertByPriority
      split_ifs with h
      · simp only [List.mem_cons, ih]
        tauto
      · simp only [List.mem_cons]

theorem pairwise_insertByPriority (x : HL7Queue.QueuedMessage)
    (l : List HL7Queue.QueuedMessage) (hl : l.Pairwise HL7Queue.qBefore)
    (harr : ∀ y ∈ l, y.arrival < x.arrival) :
    (HL7Queue.insertByPriority x l).Pairwise HL7Queue.qBefore := by
  induction l with
  | nil => simp [HL7Queue.insertByPriority]
  | cons z zs ih =>
      rcases List.pairwise_cons.mp hl with ⟨hz, hzs⟩
      unfold HL7Queue.insertByPriority
      split_ifs with h
      · refine List.pairwise_cons.mpr ⟨?_, ih hzs (fun y hy => harr y (List.mem_cons_of_mem _ hy))⟩
        intro y hy
        rcases (mem_insertByPriority x y zs).mp hy with rfl | hy'
        · rcases lt_or_eq_of_le h with hlt | heq
          · exact Or.inl hlt
          · exact Or.inr ⟨heq.symm, harr z (List.mem_cons_self _ _)⟩
        · exact hz y hy'
      · push_neg at h
        refine List.pairwise_cons.mpr ⟨?_, hl⟩
        intro y hy
        rcases List.mem_cons.mp hy with rfl | hy'
        · exact Or.inl h
        · rcases hz y hy' with h1 | ⟨h1, _⟩
          · exact Or.inl (h1.trans h)
          · exact Or.inl (h1 ▸ h)

theorem insertByPriority_of_all_ge (x : HL7Queue.QueuedMessage)
    (l : List HL7Queue.QueuedMessage) (h : ∀ z ∈ l, x.priority ≤ z.priority) :
    HL7Queue.insertByPriority x l = l ++ [x] := by
  induction l with
  | nil => rfl
  | cons z zs ih =>
      unfold HL7Queue.insertByPriority
      rw [if_pos (h z (List.mem_cons_self _ _)),
        ih (fun z hz => h z (List.mem_cons_of_mem _ hz))]
      rfl

theorem foldl_insert_of_sorted (l acc : List HL7Queue.QueuedMessage)
    (h : (acc ++ l).Pairwise HL7Queue.qBefore) :
    l.foldl (fun a x => HL7Queue.insertByPriority x a) acc = acc ++ l := by
  induction l generalizing acc with
  | nil => simp
  | cons x xs ih =>
      have hins : HL7Queue.insertByPriority x acc = acc ++ [x] := by
        apply insertByPriority_of_all_ge
        intro z hz
        have hq : HL7Queue.qBefore z x :=
          (List.pairwise_append.mp h).2.2 z hz x (List.mem_cons_self _ _)
        rcases hq with h1 | ⟨h1, _⟩
        · exact le_of_lt h1
        · exact le_of_eq h1.symm
      rw [List.foldl_cons, hins]
      have hsorted : ((acc ++ [x]) ++ xs).Pairwise HL7Queue.qBefore := by
        rw [List.append_assoc]
        simpa using h
      rw [ih (acc ++ [x]) hsorted, List.append_assoc]
      rfl

theorem pySort_of_sorted_append (q : List HL7Queue.QueuedMessage)
    (m : HL7Queue.QueuedMessage) (h : q.Pairwise HL7Queue.qBefore) :
    HL7Queue.pySortByPriorityDesc (q ++ [m]) = HL7Queue.insertByPriority m q := by
  unfold HL7Queue.pySortByPriorityDesc
  rw [List.foldl_append, foldl_insert_of_sorted q [] (by simpa using h)]
  rfl

theorem qinv_step (s : HL7Queue.QueueState) (op : HL7Queue.QOp) (h : QInv s) :
    QInv (HL7Queue.stepOp s op) := by
  rcases h with ⟨hp, ha⟩
  cases op with
  | deq =>
      unfold HL7Queue.stepOp HL7Queue.dequeue
      dsimp only
      cases hq : s.queue with
      | nil => exact ⟨hp, ha⟩
      | cons m rest =>
          rw [hq] at hp ha
          exact ⟨(List.pairwise_cons.mp hp).2,
            fun y hy => ha y (List.mem_cons_of_mem m hy)⟩
  | enq msg priority =>
      unfold HL7Queue.stepOp HL7Queue.enqueue
      dsimp only
      have hsort := pySort_of_sorted_append s.queue
        { queue_id := "Q-" ++ toString s.counter, message := msg, priority := priority,
          arrival := s.counter, status := "pending" } hp
      refine ⟨?_, ?_⟩
      · rw [hsort]
        exact pairwise_insertByPriority _ _ hp (fun y hy => ha y hy)
      · intro y hy
        rw [hsort] at hy
        rcases (mem_insertByPriority _ y _).mp hy with rfl | hy'
        · exact Nat.lt_succ_self _
        · exact Nat.lt_succ_of_lt (ha y hy')

theorem qinv_runOps (ops : List HL7Queue.QOp) : QInv (HL7Queue.runOps ops) := by
  unfold HL7Queue.runOps
  have h : ∀ s, QInv s → QInv (ops.foldl HL7Queue.stepOp s) := by
    induction ops with
    | nil => exact fun s hs => hs
    | cons op rest ih => exact fun s hs => ih _ (qinv_step s op hs)
  exact h _ ⟨List.Pairwise.nil, by simp⟩

/-- C8: after any sequence of enqueue/dequeue calls the queue is ordered
strictly by descending priority with FIFO tie-breaks on arrival, and a
dequeue removes and returns the front message, which has the highest
priority present and the earliest arrival within that priority. -/
theorem c8_queue_priority_fifo (ops : List HL7Queue.QOp) :
    (HL7Queue.runOps ops).queue.Pairwise HL7Queue.qBefore ∧
    (∀ h t, (HL7Queue.runOps ops).queue = h :: t →
      (HL7Queue.dequeue (HL7Queue.runOps ops)).2 = some { h with status := "processing" } ∧
      (HL7Queue.dequeue (HL7Queue.runOps ops)).1.queue = t ∧
      ∀ m ∈ (HL7Queue.runOps ops).queue,
        m.priority ≤ h.priority ∧ (m.priority = h.priority → h.arrival ≤ m.arrival)) := by
  have hinv := qinv_runOps ops
  refine ⟨hinv.1, ?_⟩
  intro h t hq
  refine ⟨by simp [HL7Queue.dequeue, hq], by simp [HL7Queue.dequeue, hq], ?_⟩
  intro m hm
  rcases List.mem_cons.mp (hq ▸ hm) with rfl | hm'
  · exact ⟨le_refl _, fun _ => le_refl _⟩
  · have hp := hinv.1
    rw [hq] at hp
    rcases (List.pairwise_cons.mp hp).1 m hm' with h1 | ⟨h1, h2⟩
    · exact ⟨le_of_lt h1, fun he => absurd h1 (by rw [he]; exact lt_irrefl _)⟩
    · exact ⟨le_of_eq h1.symm, fun _ => le_of_lt h2⟩

/-- Witness for C8 on a concrete operation sequence: the later but
higher-priority message is dequeued first. -/
theorem c8_queue_priority_fifo_witness :
    (HL7Queue.runOps [.enq "a" 1, .enq "b" 2]).queue.Pairwise HL7Queue.qBefore ∧
    (HL7Queue.dequeue (HL7Queue.runOps [.enq "a" 1, .enq "b" 2])).2 =
      some { queue_id := "Q-1", message := "b", priority := 2, arrival := 1,
             status := "processing" } := by
  have h := c8_queue_priority_fifo [.enq "a" 1, .enq "b" 2]
  refine ⟨h.1, ?_⟩
  have h2 := h.2
    { queue_id := "Q-1", message := "b", priority := 2, arrival := 1, status := "pending" }
    [{ queue_id := "Q-0", message := "a", priority := 1, arrival := 0, status := "pending" }]
    (by decide)
  exact h2.1

/-! ### C1: codec round trips -/

theorem extract_build_patient (pt : FHIR.PatientIn) :
    FHIR.extract_patient_data (FHIR.build_patient_resource pt.id pt.first_name pt.last_name
      pt.dob pt.gender pt.phone pt.email pt.address pt.mrn) =
    { id := some pt.id
      first_name := pt.first_name
      last_name := pt.last_name
      dob := some pt.dob
      gender := some (pyLower pt.gender)
      phone := (match pt.phone with
                | some ph => if ph != "" then some ph else none
                | none => none)
      email := (match pt.email with
                | some em => if em != "" then some em else none
                | none => none)
      address := match pt.address with
        | some a => { street := a.street, city := some a.city, state := some a.state,
                      zip := some a.zip }
        | none => { street := "", city := none, state := none, zip := none } } := by
  unfold FHIR.build_patient_resource FHIR.extract_patient_data
  rcases pt.phone with _ | ph <;> rcases pt.email with _ | em <;>
    rcases pt.address with _ | a <;> dsimp only <;> (try split_ifs) <;>
    simp_all [List.find?]

theorem extract_build_practitioner (pr : FHIR.PractitionerIn) :
    FHIR.extract_practitioner_data (FHIR.build_practitioner_resource pr.id pr.first_name
      pr.last_name pr.npi pr.specialty pr.phone) =
    { id := some pr.id
      first_name := pr.first_name
      last_name := pr.last_name
      npi := some pr.npi
      phone := (match pr.phone with
                | some ph => if ph != "" then some ph else none
                | none => none) } := by
  have hnpi : pyInStr "npi" (pyLower FHIR.SYSTEM_NPI) = true := by decide
  unfold FHIR.build_practitioner_resource FHIR.extract_practitioner_data
  rcases pr.phone with _ | ph <;> dsimp only <;> (try split_ifs) <;>
    simp_all [List.find?, hnpi]

theorem extract_build_medication (pref rref : String) (m : FHIR.MedicationIn) :
    FHIR.extract_medication_data (FHIR.build_medication_request m.id pref rref m.name
      m.rxnorm_code m.dosage_instruction m.quantity m.refills m.notes) =
    { id := some m.id
      name := some m.name
      rxnorm_code := some m.rxnorm_code
      dosage_instruction := some m.dosage_instruction
      quantity := (match m.quantity with
                   | some q => if q != 0 then some q else none
                   | none => none)
      refills := m.refills } := by
  have hrx : pyInStr "rxnorm" (pyLower FHIR.SYSTEM_RXNORM) = true := by decide
  unfold FHIR.build_medication_request FHIR.extract_medication_data
  rcases m.quantity with _ | q <;> rcases m.refills with _ | r <;> dsimp only <;>
    (try split_ifs) <;> simp_all [List.find?, hrx]

theorem foldEntry_medicationRequests (ms : List FHIR.MedicationRequestRes)
    (acc : FHIR.PrescriptionOut) :
    (ms.map FHIR.Resource.medicationRequest).foldl FHIR.foldEntry acc =
      { acc with medications := acc.medications ++ ms.map FHIR.extract_medication_data } := by
  induction ms generalizing acc with
  | nil => simp
  | cons m rest ih =>
      simp only [List.map_cons, List.foldl_cons]
      rw [ih]
      simp [FHIR.foldEntry, List.append_assoc]

theorem fhirRoundTrip_eq (p : FHIR.PrescriptionIn) :
    FHIR.fhirRoundTrip p = FHIR.fhirRoundExpected p := by
  unfold FHIR.fhirRoundTrip FHIR.fhir_to_prescription FHIR.prescription_to_fhir
  dsimp only
  rw [List.cons_append, List.cons_append, List.nil_append, List.foldl_cons, List.foldl_cons]
  rw [show ∀ acc r, FHIR.foldEntry acc (FHIR.Resource.patient r) =
        { acc with patient := some (FHIR.extract_patient_data r) } from fun _ _ => rfl]
  rw [show ∀ acc r, FHIR.foldEntry acc (FHIR.Resource.practitioner r) =
        { acc with practitioner := some (FHIR.extract_practitioner_data r) } from fun _ _ => rfl]
  rw [foldEntry_medicationRequests]
  rw [List.map_map]
  unfold FHIR.fhirRoundExpected
  rw [extract_build_patient, extract_build_practitioner]
  simp only [List.nil_append]
  congr 1
  apply List.map_congr_left
  intro m _
  exact extract_build_medication ("Patient/" ++ p.patient.id)
    ("Practitioner/" ++ p.practitioner.id) m

theorem splitOnChar_ne_nil (sep : Char) (l : List Char) : splitOnChar sep l ≠ [] := by
  cases l with
  | nil => simp [splitOnChar]
  | cons c cs =>
      unfold splitOnChar
      cases h : splitOnChar sep cs with
      | nil => simp
      | cons p ps => split_ifs <;> simp

theorem splitOnChar_no_sep (sep : Char) (l : List Char) (h : sep ∉ l) :
    splitOnChar sep l = [l] := by
  induction l with
  | nil => rfl
  | cons c cs ih =>
      rw [List.mem_cons, not_or] at h
      unfold splitOnChar
      rw [ih h.2]
      simp [Ne.symm h.1]

theorem splitOnChar_append_sep (sep : Char) (a b : List Char) (h : sep ∉ a) :
    splitOnChar sep (a ++ sep :: b) = a :: splitOnChar sep b := by
  induction a with
  | nil =>
      rw [List.nil_append]
      conv_lhs => rw [splitOnChar.eq_def]
      dsimp only
      cases hb : splitOnChar sep b with
      | nil => exact absurd hb (splitOnChar_ne_nil sep b)
      | cons p ps => simp
  | cons c cs ih =>
      rw [List.mem_cons, not_or] at h
      rw [List.cons_append]
      conv_lhs => rw [splitOnChar.eq_def]
      dsimp only
      rw [ih h.2]
      simp [Ne.symm h.1]

theorem toDigitsCore_ne_nil (b f n : Nat) (acc : List Char) (h : acc ≠ []) :
    Nat.toDigitsCore b f n acc ≠ [] := by
  induction f generalizing n acc with
  | zero => simpa [Nat.toDigitsCore] using h
  | succ f ih =>
      unfold Nat.toDigitsCore
      dsimp only
      split
      · exact List.cons_ne_nil _ _
      · exact ih _ _ (List.cons_ne_nil _ _)

theorem nat_toString_ne_empty (n : Nat) : toString n ≠ "" := by
  show Nat.repr n ≠ ""
  unfold Nat.repr
  intro h
  have hd := congrArg String.data h
  have hnil : Nat.toDigits 10 n = [] := by
    simpa [List.asString] using hd
  unfold Nat.toDigits Nat.toDigitsCore at hnil
  dsimp only at hnil
  revert hnil
  split
  · exact List.cons_ne_nil _ _
  · exact toDigitsCore_ne_nil _ _ _ _ (List.cons_ne_nil _ _)

theorem caret_mid_ne_empty (x y : String) : x ++ "^" ++ y ≠ "" := by
  intro h
  have hd := congrArg String.data h
  simp [String.data_append] at hd

theorem pySplit_pair (x y : String) (hx : '^' ∉ x.data) (hy : '^' ∉ y.data) :
    pySplit '^' (x ++ "^" ++ y) = [x, y] := by
  unfold pySplit
  have hdata : (x ++ "^" ++ y).data = x.data ++ '^' :: y.data := by
    simp [String.data_append]
  rw [hdata, splitOnChar_append_sep _ _ _ hx, splitOnChar_no_sep _ _ hy]
  rfl

theorem pySplit_med (x y : String) (hx : '^' ∉ x.data) (hy : '^' ∉ y.data) :
    pySplit '^' (x ++ "^" ++ y ++ "^RXN") = [x, y, "RXN"] := by
  unfold pySplit
  have hdata : (x ++ "^" ++ y ++ "^RXN").data =
      x.data ++ '^' :: (y.data ++ '^' :: ['R', 'X', 'N']) := by
    simp [String.data_append]
  rw [hdata, splitOnChar_append_sep _ _ _ hx, splitOnChar_append_sep _ _ _ hy,
    splitOnChar_no_sep _ _ (by decide)]
  rfl

theorem pySplit_provider (n l f : String) (hn : '^' ∉ n.data) (hl : '^' ∉ l.data)
    (hf : '^' ∉ f.data) :
    pySplit '^' (n ++ "^" ++ l ++ "^" ++ f) = [n, l, f] := by
  unfold pySplit
  have hdata : (n ++ "^" ++ l ++ "^" ++ f).data =
      n.data ++ '^' :: (l.data ++ '^' :: f.data) := by
    simp [String.data_append]
  rw [hdata, splitOnChar_append_sep _ _ _ hn, splitOnChar_append_sep _ _ _ hl,
    splitOnChar_no_sep _ _ hf]
  rfl

theorem pySplit_address (s ci st z : String) (hs : '^' ∉ s.data) (hci : '^' ∉ ci.data)
    (hst : '^' ∉ st.data) (hz : '^' ∉ z.data) :
    pySplit '^' (s ++ "^^" ++ ci ++ "^" ++ st ++ "^" ++ z) = [s, "", ci, st, z] := by
  unfold pySplit
  have hdata : (s ++ "^^" ++ ci ++ "^" ++ st ++ "^" ++ z).data =
      s.data ++ '^' :: ([] ++ '^' :: (ci.data ++ '^' :: (st.data ++ '^' :: z.data))) := by
    simp [String.data_append]
  rw [hdata, splitOnChar_append_sep _ _ _ hs,
    splitOnChar_append_sep _ ([] : List Char) _ (by decide),
    splitOnChar_append_sep _ _ _ hci, splitOnChar_append_sep _ _ _ hst,
    splitOnChar_no_sep _ _ hz]
  rfl

theorem pySplit_phone (ph : String) (hph : '^' ∉ ph.data) :
    pySplit '^' ("^PRN^PH^^^" ++ ph) = ["", "PRN", "PH", "", "", ph] := by
  unfold pySplit
  have hdata : ("^PRN^PH^^^" ++ ph).data =
      [] ++ '^' :: (['P', 'R', 'N'] ++ '^' :: (['P', 'H'] ++ '^' ::
        ([] ++ '^' :: ([] ++ '^' :: ph.data)))) := by
    simp [String.data_append]
  rw [hdata, splitOnChar_append_sep _ ([] : List Char) _ (by decide),
    splitOnChar_append_sep _ _ _ (by decide), splitOnChar_append_sep _ _ _ (by decide),
    splitOnChar_append_sep _ ([] : List Char) _ (by decide),
    splitOnChar_append_sep _ ([] : List Char) _ (by decide),
    splitOnChar_no_sep _ _ hph]
  rfl

theorem filter_find_master (raw : List (Nat × String)) (j : Nat)
    (h : (raw.map Prod.fst).Nodup) :
    (raw.filter (fun f => f.2 != "")).find? (fun f => f.1 == j) =
      match raw.find? (fun f => f.1 == j) with
      | some f => if f.2 = "" then none else some f
      | none => none := by
  induction raw with
  | nil => rfl
  | cons fv rest ih =>
      obtain ⟨i, v⟩ := fv
      rw [List.map_cons, List.nodup_cons] at h
      by_cases hv : v = ""
      · rw [List.filter_cons_of_neg (by simp [hv])]
        by_cases hij : i = j
        · subst hij
          have hnone : (rest.filter (fun f => f.2 != "")).find?
              (fun f => f.1 == i) = none := by
            apply List.find?_eq_none.mpr
            intro x hx
            simp only [beq_iff_eq]
            intro hxi
            exact h.1 (List.mem_map.mpr ⟨x, List.mem_of_mem_filter hx, hxi⟩)
          rw [hnone]
          simp [List.find?, hv]
        · rw [ih h.2]
          have hne : ((i : Nat) == j) = false := by simp [hij]
          simp [List.find?, hne]
      · rw [List.filter_cons_of_pos (by simp [hv])]
        by_cases hij : i = j
        · subst hij
          simp [List.find?, hv]
        · have hne : ((i : Nat) == j) = false := by simp [hij]
          simp only [List.find?, hne]
          exact ih h.2

theorem mkSeg_getF (id : String) (raw : List (Nat × String)) (j : Nat) (d : String)
    (h : (raw.map Prod.fst).Nodup) :
    (HL7.mkSeg id raw).getF j d =
      match raw.find? (fun f => f.1 == j) with
      | some f => if f.2 = "" then d else f.2
      | none => d := by
  unfold HL7.Seg.getF
  rw [show (HL7.mkSeg id raw).fields =
    raw.filter (fun f => f.2 != "") from rfl]
  rw [filter_find_master raw j h]
  cases hr : raw.find? (fun f => f.1 == j) with
  | none => rfl
  | some f => by_cases hf : f.2 = "" <;> simp [hf]

theorem mkSeg_find12 (id : String) (raw : List (Nat × String))
    (h : (raw.map Prod.fst).Nodup) :
    (HL7.mkSeg id raw).fields.find? (fun f => f.1 == 12) =
      match raw.find? (fun f => f.1 == 12) with
      | some f => if f.2 = "" then none else some f
      | none => none := by
  rw [show (HL7.mkSeg id raw).fields =
    raw.filter (fun f => f.2 != "") from rfl]
  exact filter_find_master raw 12 h

theorem ne_empty_of_data_ne_nil (s : String) (h : s.data ≠ []) : s ≠ "" := by
  intro hc
  subst hc
  exact h rfl

theorem if_empty_collapse (v : String) : (if v = "" then "" else v) = v := by
  by_cases h : v = "" <;> simp [h]

theorem pyTake1_pyUpper_ne_empty (g : String) (hg : g ≠ "") :
    pyTake 1 (pyUpper g) ≠ "" := by
  apply ne_empty_of_data_ne_nil
  show (g.data.map pyUpperChar).take 1 ≠ []
  cases hgd : g.data with
  | nil => exact absurd (String.ext hgd) hg
  | cons c cs => simp

theorem pidRaw_nodup (p : HL7.HPrescription) :
    ((HL7.pidRaw p).map Prod.fst).Nodup := by
  unfold HL7.pidRaw
  rcases p.patient.address with _ | a <;> rcases p.patient.phone with _ | ph <;>
    dsimp only <;> (try split_ifs) <;>
    simp only [List.map_append, List.map_cons, List.map_nil] <;> decide

theorem orcRaw_nodup (now : String) (p : HL7.HPrescription) :
    ((HL7.orcRaw now p).map Prod.fst).Nodup := by
  unfold HL7.orcRaw
  rcases p.practitioner with _ | pr <;>
    dsimp only <;>
    simp only [List.map_append, List.map_cons, List.map_nil] <;> decide

theorem rxeRaw_nodup (m : HL7.HMed) : ((HL7.rxeRaw m).map Prod.fst).Nodup := by
  unfold HL7.rxeRaw
  split_ifs <;> simp only [List.map_append, List.map_cons, List.map_nil] <;> decide

theorem extract_orc_eq (now : String) (p : HL7.HPrescription)
    (hpr : ∀ pr, p.practitioner = some pr →
      '^' ∉ pr.npi.data ∧ '^' ∉ pr.last_name.data ∧ '^' ∉ pr.first_name.data) :
    HL7.extract_practitioner_from_orc (HL7.mkSeg "ORC" (HL7.orcRaw now p)) =
      (match p.practitioner with
       | some pr => ⟨pr.npi, pr.last_name, pr.first_name⟩
       | none => ⟨"", "", ""⟩) := by
  have hnd := orcRaw_nodup now p
  unfold HL7.extract_practitioner_from_orc
  rw [mkSeg_getF _ _ 12 "" hnd]
  unfold HL7.orcRaw
  cases hpc : p.practitioner with
  | none => simp [List.find?, show pySplit '^' "" = [""] from rfl]
  | some pr =>
      obtain ⟨h1, h2, h3⟩ := hpr pr hpc
      have hne : pr.npi ++ "^" ++ pr.last_name ++ "^" ++ pr.first_name ≠ "" :=
        caret_mid_ne_empty _ _
      simp [List.find?, hne, pySplit_provider _ _ _ h1 h2 h3]

theorem extract_rxe_eq (m : HL7.HMed) (h1 : '^' ∉ m.rxnorm_code.data)
    (h2 : '^' ∉ m.name.data) :
    HL7.extract_medication_from_rxe (HL7.mkSeg "RXE" (HL7.rxeRaw m)) =
      { rxnorm_code := m.rxnorm_code, name := m.name, quantity := m.quantity,
        dosage_instruction := m.dosage_instruction, dosage_form := "TAB",
        refills := if m.refills = 0 then .intZero else .strVal (toString m.refills) } := by
  have hnd := rxeRaw_nodup m
  have hne2 : m.rxnorm_code ++ "^" ++ m.name ++ "^RXN" ≠ "" :=
    ne_empty_of_data_ne_nil _ (by simp [String.data_append])
  unfold HL7.extract_medication_from_rxe
  rw [mkSeg_getF _ _ 2 "" hnd, mkSeg_getF _ _ 3 "" hnd, mkSeg_getF _ _ 5 "" hnd,
    mkSeg_getF _ _ 6 "" hnd, mkSeg_find12 _ _ hnd]
  unfold HL7.rxeRaw
  by_cases hr : m.refills = 0
  · simp [List.find?, hr, hne2, if_empty_collapse, pySplit_med _ _ h1 h2]
  · have hrs : toString m.refills ≠ "" := nat_toString_ne_empty _
    simp [List.find?, hr, hne2, hrs, if_empty_collapse, pySplit_med _ _ h1 h2]

theorem extract_pid_eq (p : HL7.HPrescription)
    (hln : '^' ∉ p.patient.last_name.data) (hfn : '^' ∉ p.patient.first_name.data)
    (hph : ∀ ph, p.patient.phone = some ph → '^' ∉ ph.data)
    (haddr : ∀ a, p.patient.address = some a →
      '^' ∉ a.street.data ∧ '^' ∉ a.city.data ∧ '^' ∉ a.state.data ∧ '^' ∉ a.zip.data)
    (hg : p.patient.gender ≠ "") :
    HL7.extract_patient_from_pid (HL7.mkSeg "PID" (HL7.pidRaw p)) =
      { id := p.patient.id
        mrn := p.patient.mrn
        last_name := p.patient.last_name
        first_name := p.patient.first_name
        dob := removeDashes p.patient.dob
        gender := pyTake 1 (pyUpper p.patient.gender)
        phone := (match p.patient.phone with
                  | some ph => if ph != "" then some ph else none
                  | none => none)
        address := match p.patient.address with
          | some a => ⟨a.street, a.city, a.state, a.zip⟩
          | none => ⟨"", "", "", ""⟩ } := by
  have hnd := pidRaw_nodup p
  have h5ne : p.patient.last_name ++ "^" ++ p.patient.first_name ≠ "" :=
    caret_mid_ne_empty _ _
  have h8ne := pyTake1_pyUpper_ne_empty _ hg
  unfold HL7.extract_patient_from_pid
  rw [mkSeg_getF _ _ 5 "" hnd, mkSeg_getF _ _ 11 "" hnd, mkSeg_getF _ _ 13 "" hnd,
    mkSeg_getF _ _ 3 "" hnd, mkSeg_getF _ _ 2 "" hnd, mkSeg_getF _ _ 7 "" hnd,
    mkSeg_getF _ _ 8 "U" hnd]
  unfold HL7.pidRaw
  cases had : p.patient.address with
  | none =>
      cases hpc : p.patient.phone with
      | none =>
          simp [List.find?, h5ne, h8ne, if_empty_collapse,
            pySplit_pair _ _ hln hfn, show pySplit '^' "" = [""] from rfl]
      | some ph =>
          by_cases hpe : ph = ""
          · simp [List.find?, hpe, h5ne, h8ne, if_empty_collapse,
              pySplit_pair _ _ hln hfn, show pySplit '^' "" = [""] from rfl]
          · have hphc := hph ph hpc
            have hpne : "^PRN^PH^^^" ++ ph ≠ "" :=
              ne_empty_of_data_ne_nil _ (by simp [String.data_append])
            simp [List.find?, hpe, h5ne, h8ne, hpne, if_empty_collapse,
              pySplit_pair _ _ hln hfn, pySplit_phone _ hphc,
              show pySplit '^' "" = [""] from rfl]
  | some a =>
      obtain ⟨has, hac, hast, haz⟩ := haddr a had
      have hane : a.street ++ "^^" ++ a.city ++ "^" ++ a.state ++ "^" ++ a.zip ≠ "" :=
        ne_empty_of_data_ne_nil _ (by simp [String.data_append])
      cases hpc : p.patient.phone with
      | none =>
          simp [List.find?, h5ne, h8ne, hane, if_empty_collapse,
            pySplit_pair _ _ hln hfn, pySplit_address _ _ _ _ has hac hast haz,
            show pySplit '^' "" = [""] from rfl]
      | some ph =>
          by_cases hpe : ph = ""
          · simp [List.find?, hpe, h5ne, h8ne, hane, if_empty_collapse,
              pySplit_pair _ _ hln hfn, pySplit_address _ _ _ _ has hac hast haz,
              show pySplit '^' "" = [""] from rfl]
          · have hphc := hph ph hpc
            have hpne : "^PRN^PH^^^" ++ ph ≠ "" :=
              ne_empty_of_data_ne_nil _ (by simp [String.data_append])
            simp [List.find?, hpe, h5ne, h8ne, hane, hpne, if_empty_collapse,
              pySplit_pair _ _ hln hfn, pySplit_address _ _ _ _ has hac hast haz,
              pySplit_phone _ hphc, show pySplit '^' "" = [""] from rfl]

theorem hl7RoundTrip_eq (now : String) (p : HL7.HPrescription)
    (hln : '^' ∉ p.patient.last_name.data) (hfn : '^' ∉ p.patient.first_name.data)
    (hph : ∀ ph, p.patient.phone = some ph → '^' ∉ ph.data)
    (haddr : ∀ a, p.patient.address = some a →
      '^' ∉ a.street.data ∧ '^' ∉ a.city.data ∧ '^' ∉ a.state.data ∧ '^' ∉ a.zip.data)
    (hpr : ∀ pr, p.practitioner = some pr →
      '^' ∉ pr.npi.data ∧ '^' ∉ pr.last_name.data ∧ '^' ∉ pr.first_name.data)
    (hmeds : ∀ m ∈ p.medications, '^' ∉ m.rxnorm_code.data ∧ '^' ∉ m.name.data)
    (hg : p.patient.gender ≠ "") :
    HL7.hl7RoundTrip now p = .ok (HL7.hl7RoundExpected p) := by
  have hfindPID : HL7.find_segment
      ([HL7.mkSeg "MSH" (HL7.mshRaw now p), HL7.mkSeg "PID" (HL7.pidRaw p),
        HL7.mkSeg "ORC" (HL7.orcRaw now p)] ++
        (p.medications.map fun m => HL7.mkSeg "RXE" (HL7.rxeRaw m))) "PID" =
      some (HL7.mkSeg "PID" (HL7.pidRaw p)) := by
    simp [HL7.find_segment, List.find?, HL7.mkSeg]
  have hfindORC : HL7.find_segment
      ([HL7.mkSeg "MSH" (HL7.mshRaw now p), HL7.mkSeg "PID" (HL7.pidRaw p),
        HL7.mkSeg "ORC" (HL7.orcRaw now p)] ++
        (p.medications.map fun m => HL7.mkSeg "RXE" (HL7.rxeRaw m))) "ORC" =
      some (HL7.mkSeg "ORC" (HL7.orcRaw now p)) := by
    simp [HL7.find_segment, List.find?, HL7.mkSeg]
  have hfilterRXE : HL7.find_all_segments
      ([HL7.mkSeg "MSH" (HL7.mshRaw now p), HL7.mkSeg "PID" (HL7.pidRaw p),
        HL7.mkSeg "ORC" (HL7.orcRaw now p)] ++
        (p.medications.map fun m => HL7.mkSeg "RXE" (HL7.rxeRaw m))) "RXE" =
      p.medications.map (fun m => HL7.mkSeg "RXE" (HL7.rxeRaw m)) := by
    simp only [HL7.find_all_segments, List.cons_append, List.nil_append]
    rw [List.filter_cons_of_neg (by simp [HL7.mkSeg]),
      List.filter_cons_of_neg (by simp [HL7.mkSeg]),
      List.filter_cons_of_neg (by simp [HL7.mkSeg]),
      List.filter_eq_self.mpr]
    intro m hm
    rcases List.mem_map.mp hm with ⟨m0, _, rfl⟩
    rfl
  unfold HL7.hl7RoundTrip HL7.extract_prescription_data HL7.build_and_parse_rde_o11
  dsimp only
  rw [hfindPID, hfindORC, hfilterRXE]
  simp only [bne_self_eq_false, Bool.false_eq_true, if_false, Option.map_some']
  rw [extract_pid_eq p hln hfn hph haddr hg, extract_orc_eq now p hpr, List.map_map]
  unfold HL7.hl7RoundExpected
  congr 2
  apply List.map_congr_left
  intro m hm
  exact extract_rxe_eq m (hmeds m hm).1 (hmeds m hm).2

theorem noCaret_not_mem (s : String) (h : HL7.noCaret s = true) : '^' ∉ s.data := by
  simp only [HL7.noCaret] at h
  simp_all

/-- C1 (amended): the FHIR round trip returns the prescription with
gender lowercased, falsy phone/email/quantity collapsed to absent, and
the patient `mrn`, practitioner `specialty` and medication `notes`
dropped; the HL7 round trip (over delimiter-free, gender-carrying
inputs) returns the prescription with the date of birth stripped of
hyphens, the gender reduced to the first letter of its uppercasing,
refills stringified, a constant `TAB` dosage form added, and an absent
practitioner or address decoded as empty strings.  Neither codec
satisfies `decode(encode(P)) == P` up to field-level normalization,
since whole fields are erased. -/
theorem c1_roundtrip_amended :
    (∀ p : FHIR.PrescriptionIn, FHIR.fhirRoundTrip p = FHIR.fhirRoundExpected p) ∧
    (∀ (now : String) (p : HL7.HPrescription),
      HL7.hl7DelimiterFree p = true → p.patient.gender ≠ "" →
      HL7.hl7RoundTrip now p = .ok (HL7.hl7RoundExpected p)) := by
  constructor
  · exact fhirRoundTrip_eq
  · intro now p hdf hg
    simp only [HL7.hl7DelimiterFree, Bool.and_eq_true] at hdf
    obtain ⟨⟨⟨⟨⟨hln, hfn⟩, hph⟩, haddr⟩, hpr⟩, hmeds⟩ := hdf
    apply hl7RoundTrip_eq
    · exact noCaret_not_mem _ hln
    · exact noCaret_not_mem _ hfn
    · intro ph hp
      rw [hp] at hph
      exact noCaret_not_mem _ hph
    · intro a ha
      rw [ha] at haddr
      simp only [Bool.and_eq_true] at haddr
      exact ⟨noCaret_not_mem _ haddr.1.1.1, noCaret_not_mem _ haddr.1.1.2,
        noCaret_not_mem _ haddr.1.2, noCaret_not_mem _ haddr.2⟩
    · intro pr hp
      rw [hp] at hpr
      simp only [Bool.and_eq_true] at hpr
      exact ⟨noCaret_not_mem _ hpr.1.1, noCaret_not_mem _ hpr.1.2, noCaret_not_mem _ hpr.2⟩
    · intro m hm
      have := List.all_eq_true.mp hmeds m hm
      simp only [Bool.and_eq_true] at this
      exact ⟨noCaret_not_mem _ this.1, noCaret_not_mem _ this.2⟩
    · exact hg

/-- C1 counterexample to the round-trip law as stated: two valid
canonical prescriptions differing only in the patient MRN have the same
FHIR round-trip image, so no decoding — up to any per-field
normalization — can return `P`: the `mrn` field is erased, not
normalized. -/
theorem c1_counterexample :
    FHIR.fhirRoundTrip fhirP0 = FHIR.fhirRoundTrip fhirP1 ∧
    fhirP0.patient.mrn = some "MRN123456" ∧ fhirP1.patient.mrn = none ∧
    fhirP0 ≠ fhirP1 := by decide

/-- Witness for C1 (amended) at the sample prescriptions. -/
theorem c1_roundtrip_amended_witness :
    FHIR.fhirRoundTrip fhirP0 = FHIR.fhirRoundExpected fhirP0 ∧
    (HL7.hl7DelimiterFree hl7P0 = true ∧ hl7P0.patient.gender ≠ "") ∧
    HL7.hl7RoundTrip "20251011120000" hl7P0 = .ok (HL7.hl7RoundExpected hl7P0) :=
  ⟨c1_roundtrip_amended.1 fhirP0, ⟨by decide, by decide⟩,
   c1_roundtrip_amended.2 "20251011120000" hl7P0 (by decide) (by decide)⟩
